import Mathlib

/-!
Verification of the `pep` pixel-art codec header (`pep.h`).

This file gives a shallow embedding of the codec's data model and
operations: the arithmetic coder, the order-2/order-0 PPM model with the
`PEP_UPDATE` rescale rule, palette construction, `pep_compress`,
`pep_decompress`, `pep_serialize` and `pep_deserialize`, followed by
theorems settling the specification claims about them.

Conventions of the embedding:
* Machine integers are modeled as `Nat` with explicit `% 2^w` where the
  C code can wrap (`uint8` = `% 256`, `uint16` = `% 65536`,
  `uint32` = `% 4294967296`, `uint64` = `% 2^64`).
* Byte buffers are `List Nat` (entries below 256); a C pointer that may
  be `NULL` becomes an `Option`.
* Loops whose termination depends on runtime values (the coder's
  renormalization loops) take fuel and return `none` when the fuel runs
  out, which models the C code never terminating (the loops have no
  other exit).  Loops with a structurally decreasing argument are
  translated into structural recursion.
* Reads past the end of a buffer (the C code can perform them on
  malformed input) are modeled as reading `0`; this is noted at each
  place where it happens.
* `pep_compress_core` and `pep_decompress_core` additionally return the
  list of every `scale`/`total` value handed to the arithmetic coder, as
  a ghost observation used by the model-total claims; `pep_compress` and
  `pep_decompress` project the ghost log away.
-/

set_option maxRecDepth 100000

/-- 2^32, the modulus of `uint32_t` arithmetic. -/
def U32 : Nat := 4294967296

/-- 2^16, the modulus of `uint16_t` arithmetic. -/
def U16 : Nat := 65536

/-- 2^64, the modulus of `uint64_t` arithmetic. -/
def U64 : Nat := 18446744073709551616

/-- `PEP_FREQ_N`: number of frequency slots per context (256 symbols + escape). -/
def pepFreqN : Nat := 257

/-- `PEP_FREQ_END`: the escape slot index. -/
def pepFreqEnd : Nat := 256

/-- `PEP_CONTEXTS_MAX`: number of order-2 contexts. -/
def pepContextsMax : Nat := 256

/-- `PEP_PROB_MAX_VALUE` = `1 << 14`. -/
def pepProbMaxValue : Nat := 16384

/-- `PEP_CODE_MAX_VALUE` = `(1 << 24) - 1`. -/
def pepCodeMaxValue : Nat := 16777215

/-- `PEP_FREQ_MAX` = `PEP_FREQ_END >> 1`, the initial rescale threshold. -/
def pepFreqMaxInit : Nat := 128

/-- `pep_format`: the four channel orders, with their C enum values. -/
inductive PepFormat where
  | rgba
  | bgra
  | abgr
  | argb
deriving DecidableEq

/-- Numeric value of the C enum constant. -/
def PepFormat.val : PepFormat → Nat
  | .rgba => 0
  | .bgra => 1
  | .abgr => 2
  | .argb => 3

/-- `pep_channel_bits`: palette channel precision selector. -/
inductive PepChannelBits where
  | bits1
  | bits2
  | bits4
  | bits8
deriving DecidableEq

/-- Numeric value of the C enum constant. -/
def PepChannelBits.val : PepChannelBits → Nat
  | .bits1 => 0
  | .bits2 => 1
  | .bits4 => 2
  | .bits8 => 3

/-- The `pep` struct.  `palette` models the `uint32_t palette[256]` array
(entries not explicitly written are zero, as the struct is zero-initialized);
`bytes` is `none` when the C pointer is `NULL`. -/
structure Pep where
  bytes : Option (List Nat)
  bytes_size : Nat
  width : Nat
  height : Nat
  format : PepFormat
  palette : List Nat
  palette_size : Nat
  channel_bits : PepChannelBits
deriving DecidableEq

/-- The zero-initialized `pep out_pep = { 0 }`. -/
def pepZero : Pep :=
  { bytes := none, bytes_size := 0, width := 0, height := 0, format := .rgba,
    palette := List.replicate 256 0, palette_size := 0, channel_bits := .bits1 }

/-- `_pep_context`: one frequency table (257 slots) and its running sum. -/
structure PepCtx where
  freq : List Nat
  sum : Nat
deriving DecidableEq

/-- `_pep_prob`: a cumulative-frequency interval. -/
structure PepProb where
  high : Nat
  low : Nat
  scale : Nat
deriving DecidableEq

/-- `_pep_get_prob_from_ctx`: prefix-sum the frequencies below `symbol`. -/
def _pep_get_prob_from_ctx (ctx : PepCtx) (symbol : Nat) : PepProb :=
  let low := (ctx.freq.take symbol).foldl (· + ·) 0
  { high := low + ctx.freq.getD symbol 0, low := low, scale := ctx.sum }

/-- Encoder coder registers (`_pep_ac_encode` without the output pointer;
emitted bytes are returned separately by each operation). -/
structure EncAC where
  low : Nat
  range : Nat
deriving DecidableEq

/-- `_pep_arith_encode`. -/
def _pep_arith_encode (ac : EncAC) (prob : PepProb) : EncAC :=
  let range1 := ac.range / prob.scale
  { low := (ac.low + prob.low * range1) % U32,
    range := (range1 * (prob.high - prob.low)) % U32 }

/-- One `emit byte; low <<= 8; range <<= 8` step of the renormalization
loop.  Returns the emitted byte together with the new registers. -/
def pepEmitShift (ac : EncAC) : Nat × EncAC :=
  (ac.low / 16777216, { low := (ac.low * 256) % U32, range := (ac.range * 256) % U32 })

/-- `_pep_arith_encode_normalize`, fuel-indexed.  `low & (PROB_MAX - 1)` is
written `low % pepProbMaxValue`.  Returns the bytes emitted (in order) and
the final registers, or `none` if the loop fails to exit within the fuel
(which models the C loop running forever, its only exit being the break). -/
def _pep_arith_encode_normalize : Nat → EncAC → Option (List Nat × EncAC)
  | 0, _ => none
  | fuel + 1, ac =>
    if pepCodeMaxValue ≤ (ac.low ^^^ ((ac.low + ac.range) % U32)) then
      if pepProbMaxValue ≤ ac.range then
        some ([], ac)
      else
        let acSq : EncAC := { ac with range := pepProbMaxValue - ac.low % pepProbMaxValue }
        let es := pepEmitShift acSq
        match _pep_arith_encode_normalize fuel es.2 with
        | none => none
        | some r => some (es.1 :: r.1, r.2)
    else
      let es := pepEmitShift ac
      match _pep_arith_encode_normalize fuel es.2 with
      | none => none
      | some r => some (es.1 :: r.1, r.2)

/-- The rescale rule applied to one slot: zero slots stay zero, non-zero
slots become `(f + 1) >> 1`. -/
def _pep_rescale_freq (f : Nat) : Nat := if f = 0 then 0 else (f + 1) / 2

/-- `PEP_UPDATE(ctx, symbol, freq_max, palette_size)`: add 2 to the
symbol's frequency and the sum; on hitting `freq_max` or `PROB_MAX`,
grow `freq_max` by `(PEP_FREQ_END - palette_size) >> 1` and halve the
non-zero frequencies, recomputing the sum.  The recomputed sum is at
most `257 * 32768 < 2^32`, so its `uint32` accumulation cannot wrap and
is written without `% U32`.  Returns the new context and `freq_max`. -/
def pep_update (ctx : PepCtx) (symbol freqMax paletteSize : Nat) : PepCtx × Nat :=
  let f1 := (ctx.freq.getD symbol 0 + 2) % U16
  let freq1 := ctx.freq.set symbol f1
  let sum1 := (ctx.sum + 2) % U32
  if freqMax ≤ f1 ∨ pepProbMaxValue ≤ sum1 then
    let freqMax2 := (freqMax + (pepFreqEnd - paletteSize) / 2) % U16
    let freq2 := freq1.map _pep_rescale_freq
    (⟨freq2, freq2.foldl (· + ·) 0⟩, freqMax2)
  else
    (⟨freq1, sum1⟩, freqMax)

/-- `PEP_BITS_TO_FIT(N)` = `N <= 1 ? 1 : 32 - clz(N - 1)`, i.e. the bit
length of `N - 1`.  Every call site passes a `palette_size`, which is at
most 255, so the chain below covers all reachable inputs and the final
branch is arbitrary beyond them. -/
def pep_bits_to_fit (n : Nat) : Nat :=
  if n ≤ 1 then 1
  else if n - 1 < 2 then 1
  else if n - 1 < 4 then 2
  else if n - 1 < 8 then 3
  else if n - 1 < 16 then 4
  else if n - 1 < 32 then 5
  else if n - 1 < 64 then 6
  else if n - 1 < 128 then 7
  else 8

/-- State of the palette-construction scan: the palette built so far,
`last_p`, and whether any pixel has been consumed (`p > in_pixels`). -/
structure PaletteSt where
  palette : List Nat
  lastP : Nat
  started : Bool
deriving DecidableEq

/-- The linear search of the palette-construction loop: index of the
first occurrence of `p`, or the list's length when absent. -/
def pep_palette_find : List Nat → Nat → Nat
  | [], _ => 0
  | c :: rest, p => if p = c then 0 else pep_palette_find rest p + 1

/-- One iteration of the palette-construction loop of `pep_compress`:
skip a pixel equal to the previous one, otherwise search the palette and
append when absent and `(palette_size + 1) < 256`. -/
def pep_palette_step (st : PaletteSt) (thisP : Nat) : PaletteSt :=
  if st.started = true ∧ thisP = st.lastP then st
  else
    let n := pep_palette_find st.palette thisP
    if st.palette.length ≤ n ∧ st.palette.length + 1 < 256 then
      ⟨st.palette ++ [thisP], thisP, true⟩
    else
      ⟨st.palette, thisP, true⟩

/-- The palette-construction phase of `pep_compress`. -/
def pep_palette_build (pixels : List Nat) : List Nat :=
  (pixels.foldl pep_palette_step ⟨[], 0, false⟩).palette

/-- The index search of the encode loop, walking `palette[i]` from
`i = index`: stop at a match, and on a mismatch perform the source's
`if (++index >= 256) { index = 0; break; }` before re-testing the loop
condition.  When the palette is exhausted the current index is kept. -/
def pep_palette_index_go : List Nat → Nat → Nat → Nat
  | [], i, _ => i
  | c :: rest, i, p =>
    if p = c then i
    else if 256 ≤ i + 1 then 0
    else pep_palette_index_go rest (i + 1) p

/-- The encode loop's palette index for a pixel value. -/
def pep_palette_index (palette : List Nat) (p : Nat) : Nat :=
  pep_palette_index_go palette 0 p

/-- Per-run constants of the encode loop. -/
structure EncCfg where
  palette : List Nat
  paletteSize : Nat
  bpi : Nat
  ipb : Nat
deriving DecidableEq

/-- State threaded through the encode loop of `pep_compress`: the 257
contexts (index 256 is the order-0 context), the coder registers, the
context id (`uint64`), the adaptive `freq_max`, the index-packing
accumulator, and an `alive` flag that turns `false` when a
renormalization loop fails to terminate (after which the C code would
never execute another statement, so every later step is a no-op). -/
structure EncSt where
  contexts : List PepCtx
  ac : EncAC
  contextId : Nat
  freqMax : Nat
  iib : Nat
  symbol : Nat
  alive : Bool
deriving DecidableEq

/-- The zero context (`memset` result). -/
def pepCtxZero : PepCtx := ⟨List.replicate 257 0, 0⟩

/-- The order-0 context as initialized: every slot 1, sum 257. -/
def pepCtxOrder0 : PepCtx := ⟨List.replicate 257 1, 257⟩

/-- Initial encode state: zeroed contexts with the order-0 table at index
`PEP_CONTEXTS_MAX`, `range = 2^32 - 1`. -/
def pepEncInit : EncSt :=
  { contexts := List.replicate 256 pepCtxZero ++ [pepCtxOrder0],
    ac := { low := 0, range := 4294967295 },
    contextId := 0, freqMax := pepFreqMaxInit, iib := 0, symbol := 0, alive := true }

/-- Fuel handed to each renormalization loop.  Whenever the registers
satisfy `1 ≤ range`, the loop exits within a handful of iterations, far
below this bound; `none` is only reachable when `range = 0`. -/
def pepNormFuel : Nat := 64

/-- The body executed by the encode loop when a packed symbol is
complete (`indices_in_byte >= indices_per_byte`, or the final partial
group): the order-2/order-0 PPM step.  Returns the new state, the bytes
emitted by the contained renormalizations, and the ghost list of every
`scale` handed to `_pep_arith_encode`, in call order. -/
def pep_encode_symbol (cfg : EncCfg) (st : EncSt) : EncSt × List Nat × List Nat :=
  let ctxIdx := st.contextId % pepContextsMax
  let ctx := st.contexts.getD ctxIdx pepCtxZero
  let contextSum := ctx.sum
  let afterBranch :=
    if contextSum ≠ 0 ∧ ctx.freq.getD st.symbol 0 ≠ 0 then
      -- symbol known to the order-2 context
      let prob := _pep_get_prob_from_ctx ctx st.symbol
      let ac1 := _pep_arith_encode st.ac prob
      let up := pep_update ctx st.symbol st.freqMax cfg.paletteSize
      some (st.contexts.set ctxIdx up.1, ac1, up.2, ([] : List Nat), [prob.scale])
    else
      -- escape to the order-0 context
      let esc :=
        if contextSum ≠ 0 then
          let probE := _pep_get_prob_from_ctx ctx pepFreqEnd
          let ac1 := _pep_arith_encode st.ac probE
          match _pep_arith_encode_normalize pepNormFuel ac1 with
          | none => (none, [probE.scale])
          | some r =>
            let ctx1 : PepCtx :=
              ⟨ctx.freq.set pepFreqEnd ((ctx.freq.getD pepFreqEnd 0 + 1) % U16),
               (ctx.sum + 1) % U32⟩
            (some (ctx1, r.2, r.1), [probE.scale])
        else
          (some (ctx, st.ac, ([] : List Nat)), ([] : List Nat))
      match esc.1 with
      | none => none
      | some (ctxA, acA, bytesA) =>
        let order0 := st.contexts.getD pepContextsMax pepCtxZero
        let probO := _pep_get_prob_from_ctx order0 st.symbol
        let ac2 := _pep_arith_encode acA probO
        let ctxB : PepCtx := if contextSum = 0 then ⟨ctxA.freq.set pepFreqEnd 1, 1⟩ else ctxA
        let ctxC : PepCtx := ⟨ctxB.freq.set st.symbol 1, (ctxB.sum + 1) % U32⟩
        let up := pep_update order0 st.symbol st.freqMax cfg.paletteSize
        let contexts1 := (st.contexts.set ctxIdx ctxC).set pepContextsMax up.1
        some (contexts1, ac2, up.2, bytesA, esc.2 ++ [probO.scale])
  match afterBranch with
  | none =>
    ({ st with alive := false }, [],
      if ctx.sum ≠ 0 ∧ ctx.freq.getD st.symbol 0 = 0 then
        [(_pep_get_prob_from_ctx ctx pepFreqEnd).scale]
      else [])
  | some (contexts1, ac1, freqMax1, bytes1, scales1) =>
    match _pep_arith_encode_normalize pepNormFuel ac1 with
    | none => ({ st with alive := false }, bytes1, scales1)
    | some r =>
      ({ contexts := contexts1, ac := r.2,
         contextId := (st.contextId * 256 + st.symbol) % U64,
         freqMax := freqMax1, iib := 0, symbol := 0, alive := true },
       bytes1 ++ r.1, scales1)

/-- One iteration of the encode loop for one pixel: pack its palette
index into the symbol byte (`uint8`), and code the byte when full. -/
def pep_encode_pixel (cfg : EncCfg) (st : EncSt) (p : Nat) : EncSt × List Nat × List Nat :=
  if st.alive = false then (st, [], [])
  else
    let index := pep_palette_index cfg.palette p
    let st1 : EncSt :=
      { st with symbol := (st.symbol ||| (index <<< (st.iib * cfg.bpi))) % 256,
                iib := st.iib + 1 }
    if cfg.ipb ≤ st1.iib then pep_encode_symbol cfg st1 else (st1, [], [])

/-- The encode loop over a list of pixels, concatenating emitted bytes
and ghost scales. -/
def pep_encode_chunk (cfg : EncCfg) : List Nat → EncSt → EncSt × List Nat × List Nat
  | [], st => (st, [], [])
  | p :: rest, st =>
    let r1 := pep_encode_pixel cfg st p
    let r2 := pep_encode_chunk cfg rest r1.1
    (r2.1, r1.2.1 ++ r2.2.1, r1.2.2 ++ r2.2.2)

/-- The final iteration of the encode loop: when the pixels are
exhausted with a partial group pending (`indices_in_byte > 0`), one more
packed symbol is coded. -/
def pep_encode_tail (cfg : EncCfg) (st : EncSt) : EncSt × List Nat × List Nat :=
  if st.alive = true ∧ 0 < st.iib then pep_encode_symbol cfg st else (st, [], [])

/-- The four-byte flush after the encode loop. -/
def pep_encode_flush : Nat → EncAC → List Nat
  | 0, _ => []
  | n + 1, ac => ac.low / 16777216 :: pep_encode_flush n { ac with low := (ac.low * 256) % U32 }

/-- `pep_compress`, instrumented: returns the compressed image (or
`none` when a renormalization loop diverges, in which case the C code
never returns) together with the ghost list of every scale handed to
`_pep_arith_encode`.  The C code reads exactly `width * height` pixels
from `in_pixels`; the embedding takes them from the front of the list
(callers supply a list of exactly that length). -/
def pep_compress_core (inPixels : Option (List Nat)) (width height : Nat)
    (inFormat : PepFormat) (inChannelBits : PepChannelBits) : Option Pep × List Nat :=
  let area := (width * height) % U32
  match inPixels with
  | none => (some pepZero, [])
  | some pxs =>
    if area = 0 then (some pepZero, [])
    else
      let pixels := pxs.take area
      let palette := pep_palette_build pixels
      let paletteSize := palette.length
      let bpi0 := pep_bits_to_fit paletteSize
      let bpi := if 8 < bpi0 then 8 else bpi0
      let cfg : EncCfg := ⟨palette, paletteSize, bpi, 8 / bpi⟩
      let r1 := pep_encode_chunk cfg pixels pepEncInit
      let r2 := pep_encode_tail cfg r1.1
      let scales := r1.2.2 ++ r2.2.2
      if r2.1.alive = true then
        let allBytes := r1.2.1 ++ r2.2.1 ++ pep_encode_flush 4 r2.1.ac
        (some { bytes := some allBytes, bytes_size := allBytes.length,
                width := width, height := height, format := inFormat,
                palette := palette ++ List.replicate (256 - paletteSize) 0,
                palette_size := paletteSize, channel_bits := inChannelBits },
         scales)
      else (none, scales)

/-- `pep_compress` (the returned image; `none` models the C call never
returning because a renormalization loop diverged). -/
def pep_compress (inPixels : Option (List Nat)) (width height : Nat)
    (inFormat : PepFormat) (inChannelBits : PepChannelBits) : Option Pep :=
  (pep_compress_core inPixels width height inFormat inChannelBits).1

/-- Ghost observation: the scales handed to the coder by a
`pep_compress` run, in call order. -/
def pep_compress_scales (inPixels : Option (List Nat)) (width height : Nat)
    (inFormat : PepFormat) (inChannelBits : PepChannelBits) : List Nat :=
  (pep_compress_core inPixels width height inFormat inChannelBits).2

/-- `_pep_pre_multiply`: multiply the color channels by alpha with the
rounding rule `(c * (a * 257) + 32896) >> 16`, leaving the alpha byte's
position determined by the format.  Bytes are little-endian lanes of the
`uint32` pixel. -/
def pepByte (c i : Nat) : Nat := (c >>> (8 * i)) % 256

/-- Rebuild a `uint32` from four byte lanes. -/
def pepOfBytes (b0 b1 b2 b3 : Nat) : Nat := b0 + b1 * 256 + b2 * 65536 + b3 * 16777216

/-- The premultiply rounding rule applied to one channel. -/
def pepPremulChan (c scaledA : Nat) : Nat := ((c * scaledA + 32896) / 65536) % 256

/-- `_pep_pre_multiply`. -/
def _pep_pre_multiply (pixel : Nat) (format : PepFormat) : Nat :=
  if format.val ≤ PepFormat.bgra.val then
    let scaledA := pepByte pixel 3 * 257
    pepOfBytes (pepByte pixel 0) (pepPremulChan (pepByte pixel 1) scaledA)
      (pepPremulChan (pepByte pixel 2) scaledA) (pepPremulChan (pepByte pixel 3) scaledA)
  else
    let scaledA := pepByte pixel 0 * 257
    pepOfBytes (pepPremulChan (pepByte pixel 0) scaledA) (pepPremulChan (pepByte pixel 1) scaledA)
      (pepPremulChan (pepByte pixel 2) scaledA) (pepByte pixel 3)

/-- The R/B swap of the alpha-last formats (`RGBA <-> BGRA`). -/
def pepSwapAL (c : Nat) : Nat :=
  (c &&& 0xff00ff00) ||| ((c &&& 0x000000ff) <<< 16) ||| ((c &&& 0x00ff0000) >>> 16)

/-- The R/B swap of the alpha-first formats (`ABGR <-> ARGB`). -/
def pepSwapAF (c : Nat) : Nat :=
  (c &&& 0x00ff00ff) ||| ((c &&& 0x0000ff00) <<< 16) ||| ((c &&& 0xff000000) >>> 16)

/-- The full byte reverse (`RGBA <-> ARGB`-style alpha flip). -/
def pepRev (c : Nat) : Nat :=
  ((c &&& 0x000000ff) <<< 24) ||| ((c &&& 0x0000ff00) <<< 8) |||
    ((c &&& 0x00ff0000) >>> 8) ||| ((c &&& 0xff000000) >>> 24)

/-- The rotation used for `RGBA/BGRA -> ABGR/ARGB`. -/
def pepRotUp (c : Nat) : Nat :=
  ((c &&& 0xff000000) >>> 24) ||| ((c &&& 0x00ffffff) <<< 8)

/-- The rotation used for `ABGR/ARGB -> RGBA/BGRA`. -/
def pepRotDown (c : Nat) : Nat :=
  ((c &&& 0x000000ff) <<< 24) ||| ((c &&& 0xffffff00) >>> 8)

/-- `_pep_reformat`: permute the byte lanes of a color between two
channel orders, by the source's five mask-and-shift cases (each written
out above). -/
def _pep_reformat (inColor : Nat) (inFormat outFormat : PepFormat) : Nat :=
  if inFormat = outFormat then inColor
  else if inFormat.val ≤ 1 ∧ outFormat.val ≤ 1 then pepSwapAL inColor
  else if 2 ≤ inFormat.val ∧ 2 ≤ outFormat.val then pepSwapAF inColor
  else if inFormat.val ^^^ outFormat.val = 2 then pepRev inColor
  else if inFormat.val < outFormat.val then pepRotUp inColor
  else pepRotDown inColor

/-- Decoder coder state: the remaining input bytes and the `low`,
`range`, `code` registers.  Reading past the end of the input yields 0
(the source checks `data_ref != end_of_data`). -/
structure DecAC where
  input : List Nat
  low : Nat
  range : Nat
  code : Nat
deriving DecidableEq

/-- Read one input byte (0 at end of data). -/
def pepReadByte : List Nat → Nat × List Nat
  | [] => (0, [])
  | b :: rest => (b % 256, rest)

/-- `_pep_arith_decode_curr_freq`.  The `uint32` subtraction
`code - low` wraps, and the division is the C expression
`(code - low) / range`; when the divided range is zero the C division
is undefined behavior, modeled as 0 by `Nat` division. -/
def _pep_arith_decode_curr_freq (ac : DecAC) (scale : Nat) : DecAC × Nat :=
  let range1 := ac.range / scale
  ({ ac with range := range1 }, ((ac.code + U32 - ac.low) % U32) / range1)

/-- One read-and-shift step of the decode renormalization loop. -/
def pepDecShift (ac : DecAC) : DecAC :=
  let rb := pepReadByte ac.input
  { input := rb.2, low := (ac.low * 256) % U32, range := (ac.range * 256) % U32,
    code := (ac.code * 256 + rb.1) % U32 }

/-- The renormalization loop inside `_pep_arith_decode_update`,
fuel-indexed like the encoder's. -/
def pep_arith_decode_renorm : Nat → DecAC → Option DecAC
  | 0, _ => none
  | fuel + 1, ac =>
    if pepCodeMaxValue ≤ (ac.low ^^^ ((ac.low + ac.range) % U32)) then
      if ac.range < pepProbMaxValue then
        pep_arith_decode_renorm fuel
          (pepDecShift { ac with range := pepProbMaxValue - ac.low % pepProbMaxValue })
      else some ac
    else
      pep_arith_decode_renorm fuel (pepDecShift ac)

/-- `_pep_arith_decode_update`: narrow the interval, then renormalize. -/
def _pep_arith_decode_update (fuel : Nat) (ac : DecAC) (prob : PepProb) : Option DecAC :=
  pep_arith_decode_renorm fuel
    { ac with low := (ac.low + ac.range * prob.low) % U32,
              range := (ac.range * (prob.high - prob.low)) % U32 }

/-- `_pep_sym_decode`. -/
structure PepSymDecode where
  prob : PepProb
  symbol : Nat
deriving DecidableEq

/-- The symbol walk of `_pep_get_sym_from_freq`: accumulate frequencies
until the running total exceeds the target.  When no slot does, the C
loop leaves `s = 257` and then reads `freq[257]` out of bounds; the
embedding models that read as 0. -/
def pep_sym_walk : List Nat → Nat → Nat → Nat → Nat × Nat
  | [], s, freq, _ => (s, freq)
  | f :: rest, s, freq, target =>
    let freq1 := freq + f
    if target < freq1 then (s, freq1) else pep_sym_walk rest (s + 1) freq1 target

/-- `_pep_get_sym_from_freq`. -/
def _pep_get_sym_from_freq (ctx : PepCtx) (targetFreq : Nat) : PepSymDecode :=
  let w := pep_sym_walk ctx.freq 0 0 targetFreq
  { prob := { high := w.2, low := w.2 - ctx.freq.getD w.1 0, scale := ctx.sum },
    symbol := w.1 }

/-- Per-run constants of the decode loop of `pep_decompress`. -/
structure DecCfg where
  palette : List Nat
  paletteSize : Nat
  fmt : PepFormat
  outFormat : PepFormat
  preMultiply : Nat
  bpi : Nat
  ipb : Nat
  mask : Nat
  area : Nat
deriving DecidableEq

/-- State threaded through the decode loop.  `out` is the pixel canvas:
cells never written stay `none`, modeling the indeterminate contents of
the freshly `malloc`ed output buffer. -/
structure DecSt where
  contexts : List PepCtx
  ac : DecAC
  contextId : Nat
  freqMax : Nat
  canvasPos : Nat
  out : List (Option Nat)
  alive : Bool
deriving DecidableEq

/-- The unpacking loop converting one packed symbol into up to
`indices_per_byte` pixels (the `indices_per_byte > 1` branch); the fuel
is `indices_per_byte`. -/
def pep_unpack_go (cfg : DecCfg) (sym : Nat) :
    Nat → Nat → Nat → List (Option Nat) → Nat × List (Option Nat)
  | 0, _, pos, out => (pos, out)
  | n + 1, iib, pos, out =>
    if pos < cfg.area then
      let palIdx := (sym >>> (iib * cfg.bpi)) &&& cfg.mask
      let px0 := _pep_reformat (cfg.palette.getD palIdx 0) cfg.fmt cfg.outFormat
      let px := if cfg.preMultiply ≠ 0 then _pep_pre_multiply px0 cfg.outFormat else px0
      pep_unpack_go cfg sym n (iib + 1) (pos + 1) (out.set pos (some px))
    else (pos, out)

/-- Write the pixels of one decoded packed symbol to the canvas.  In the
`indices_per_byte == 1` branch the symbol indexes the palette directly
(no mask); an out-of-range index reads the static palette buffer beyond
the copied entries, modeled as 0. -/
def pep_unpack (cfg : DecCfg) (sym pos : Nat) (out : List (Option Nat)) :
    Nat × List (Option Nat) :=
  if 1 < cfg.ipb then
    pep_unpack_go cfg sym cfg.ipb 0 pos out
  else if pos < cfg.area then
    let px0 := _pep_reformat (cfg.palette.getD sym 0) cfg.fmt cfg.outFormat
    let px := if cfg.preMultiply ≠ 0 then _pep_pre_multiply px0 cfg.outFormat else px0
    (pos + 1, out.set pos (some px))
  else (pos, out)

/-- One iteration of the decode loop: decode a packed symbol through the
order-2/order-0 model, update the model, unpack the pixels.  Returns the
ghost list of scales handed to `_pep_arith_decode_curr_freq`. -/
def pep_decode_step (cfg : DecCfg) (st : DecSt) : DecSt × List Nat :=
  if st.alive = false then (st, [])
  else
    let ctxIdx := st.contextId % pepContextsMax
    let ctx := st.contexts.getD ctxIdx pepCtxZero
    let contextSum := ctx.sum
    let tier2 :=
      if contextSum ≠ 0 then
        let cf := _pep_arith_decode_curr_freq st.ac contextSum
        let dr := _pep_get_sym_from_freq ctx cf.2
        match _pep_arith_decode_update pepNormFuel cf.1 dr.prob with
        | none => (none, [contextSum])
        | some ac1 =>
          if dr.symbol ≠ pepFreqEnd then
            let up := pep_update ctx dr.symbol st.freqMax cfg.paletteSize
            (some (st.contexts.set ctxIdx up.1, ac1, up.2, some dr.symbol), [contextSum])
          else
            let ctx1 : PepCtx :=
              ⟨ctx.freq.set pepFreqEnd ((ctx.freq.getD pepFreqEnd 0 + 1) % U16),
               (ctx.sum + 1) % U32⟩
            (some (st.contexts.set ctxIdx ctx1, ac1, st.freqMax, none), [contextSum])
      else (some (st.contexts, st.ac, st.freqMax, none), ([] : List Nat))
    match tier2.1 with
    | none => ({ st with alive := false }, tier2.2)
    | some (contexts1, ac1, freqMax1, found) =>
      let scales1 := tier2.2
      match found with
      | some sym =>
        let up := pep_unpack cfg sym st.canvasPos st.out
        ({ contexts := contexts1, ac := ac1,
           contextId := (st.contextId * 256 + sym) % U32,
           freqMax := freqMax1, canvasPos := up.1, out := up.2, alive := true },
         scales1)
      | none =>
        -- escape (or virgin context): decode from the order-0 context
        let order0 := contexts1.getD pepContextsMax pepCtxZero
        let cf := _pep_arith_decode_curr_freq ac1 order0.sum
        let dr := _pep_get_sym_from_freq order0 cf.2
        match _pep_arith_decode_update pepNormFuel cf.1 dr.prob with
        | none => ({ st with alive := false }, scales1 ++ [order0.sum])
        | some ac2 =>
          let ctx1 := contexts1.getD ctxIdx pepCtxZero
          let ctx2 : PepCtx := if contextSum = 0 then ⟨ctx1.freq.set pepFreqEnd 1, 1⟩ else ctx1
          let ctx3 : PepCtx := ⟨ctx2.freq.set dr.symbol 1, (ctx2.sum + 1) % U32⟩
          let up0 := pep_update order0 dr.symbol freqMax1 cfg.paletteSize
          let contexts2 := (contexts1.set ctxIdx ctx3).set pepContextsMax up0.1
          let upk := pep_unpack cfg dr.symbol st.canvasPos st.out
          ({ contexts := contexts2, ac := ac2,
             contextId := (st.contextId * 256 + dr.symbol) % U32,
             freqMax := up0.2, canvasPos := upk.1, out := upk.2, alive := true },
           scales1 ++ [order0.sum])

/-- The decode loop, iterated `packed_indices_size` times. -/
def pep_decode_loop (cfg : DecCfg) : Nat → DecSt → DecSt × List Nat
  | 0, st => (st, [])
  | n + 1, st =>
    let r1 := pep_decode_step cfg st
    let r2 := pep_decode_loop cfg n r1.1
    (r2.1, r1.2 ++ r2.2)

/-- Priming of the decoder: shift in four input bytes. -/
def pep_decode_prime : Nat → DecAC → DecAC
  | 0, ac => ac
  | n + 1, ac =>
    let rb := pepReadByte ac.input
    pep_decode_prime n { ac with input := rb.2, code := (ac.code * 256 + rb.1) % U32 }

/-- `pep_decompress`, instrumented with the ghost scale log.  Returns
`none` when the C function would return `NULL`, or when a
renormalization loop diverges (the C call never returns). -/
def pep_decompress_core (inPep : Option Pep) (outFormat : PepFormat)
    (transparentFirstColor preMultiply : Nat) : Option (List (Option Nat)) × List Nat :=
  match inPep with
  | none => (none, [])
  | some p =>
    if p.bytes = none ∨ p.bytes_size = 0 ∨ p.width = 0 ∨ p.height = 0 then (none, [])
    else
      let area := (p.width * p.height) % U32
      let bpi0 := pep_bits_to_fit p.palette_size
      let bpi := if 8 < bpi0 then 8 else bpi0
      let ipb := 8 / bpi
      -- the static palette buffer: `palette_size` entries are copied in,
      -- the remaining (stale in C) entries are modeled as zero
      let palette0 := p.palette.take p.palette_size ++ List.replicate (256 - p.palette_size) 0
      let palette1 :=
        if transparentFirstColor ≠ 0 then
          if p.format.val ≤ 1 then palette0.set 0 (palette0.getD 0 0 &&& 0xffffff00)
          else palette0.set 0 (palette0.getD 0 0 &&& 0x00ffffff)
        else palette0
      let cfg : DecCfg :=
        { palette := palette1, paletteSize := p.palette_size, fmt := p.format,
          outFormat := outFormat, preMultiply := preMultiply, bpi := bpi, ipb := ipb,
          mask := (1 <<< bpi) - 1, area := area }
      let data := (p.bytes.getD []).take p.bytes_size
      let ac0 := pep_decode_prime 4 { input := data, low := 0, range := 4294967295, code := 0 }
      let st0 : DecSt :=
        { contexts := List.replicate 256 pepCtxZero ++ [pepCtxOrder0], ac := ac0,
          contextId := 0, freqMax := pepFreqMaxInit, canvasPos := 0,
          out := List.replicate area none, alive := true }
      let r := pep_decode_loop cfg (area / ipb) st0
      (if r.1.alive = true then some r.1.out else none, r.2)

/-- `pep_decompress` (the pixel canvas; unwritten cells are `none`). -/
def pep_decompress (inPep : Option Pep) (outFormat : PepFormat)
    (transparentFirstColor preMultiply : Nat) : Option (List (Option Nat)) :=
  (pep_decompress_core inPep outFormat transparentFirstColor preMultiply).1

/-- Ghost observation: the scales handed to the coder by a
`pep_decompress` run, in call order. -/
def pep_decompress_scales (inPep : Option Pep) (outFormat : PepFormat)
    (transparentFirstColor preMultiply : Nat) : List Nat :=
  (pep_decompress_core inPep outFormat transparentFirstColor preMultiply).2

/-- Is a palette color fully white with full alpha (byte-wise test of
`pep_serialize`)? -/
def pepIsWhite (c : Nat) : Bool :=
  pepByte c 0 == 255 && pepByte c 1 == 255 && pepByte c 2 == 255 && pepByte c 3 == 255

/-- Is a palette color opaque black under an alpha-last format
(`format <= pep_bgra`)? -/
def pepIsBlackAL (c : Nat) : Bool :=
  pepByte c 0 == 0 && pepByte c 1 == 0 && pepByte c 2 == 0 && pepByte c 3 == 255

/-- Is a palette color opaque black under an alpha-first format? -/
def pepIsBlackAF (c : Nat) : Bool :=
  pepByte c 0 == 255 && pepByte c 1 == 0 && pepByte c 2 == 0 && pepByte c 3 == 0

/-- The `is_bitmap` test of `pep_serialize`. -/
def pepIsBitmap (p : Pep) (paletteCount : Nat) : Bool :=
  if paletteCount == 2 then
    let c0 := p.palette.getD 0 0
    let c1 := p.palette.getD 1 0
    if p.format.val ≤ 1 then
      (pepIsWhite c0 && pepIsBlackAL c1) || (pepIsBlackAL c0 && pepIsWhite c1)
    else
      (pepIsWhite c0 && pepIsBlackAF c1) || (pepIsBlackAF c0 && pepIsWhite c1)
  else false

/-- The variable-length size encoding: 7 bits per byte, high bit as the
continuation flag.  The fuel (5 at the call site) covers every `uint32`
value; the fuel-exhausted branch is unreachable there. -/
def pep_varint : Nat → Nat → List Nat
  | 0, size => [size % 256]
  | fuel + 1, size =>
    if 128 ≤ size then ((size ||| 128) % 256) :: pep_varint fuel (size >>> 7)
    else [size]

/-- Push one channel (quantized to `cb` bits) into the serializer's bit
buffer (`uint32`). -/
def pepPushChan (cb shift mask : Nat) (st : Nat × Nat) (v : Nat) : Nat × Nat :=
  (((st.1 <<< cb) ||| ((v >>> shift) &&& mask)) % U32, st.2 + cb)

/-- Flush whole bytes out of the serializer's bit buffer; the fuel (4)
covers the at most 23 buffered bits. -/
def pepBitFlush : Nat → Nat × Nat → List Nat → (Nat × Nat) × List Nat
  | 0, st, out => (st, out)
  | fuel + 1, st, out =>
    if 8 ≤ st.2 then
      pepBitFlush fuel (st.1, st.2 - 8) (out ++ [(st.1 >>> (st.2 - 8)) % 256])
    else (st, out)

/-- Serialize the palette when `channel_bits` is below 8: pack each
channel MSB-first into the bit buffer, flushing whole bytes. -/
def pep_serialize_pal_packed (p : Pep) (cb shift mask : Nat) (onlyRgb : Bool) :
    Nat → Nat → (Nat × Nat) → List Nat → List Nat
  | 0, _, st, out => if 0 < st.2 then out ++ [((st.1 <<< (8 - st.2))) % 256] else out
  | n + 1, i, st, out =>
    let c := p.palette.getD i 0
    let st1 := pepPushChan cb shift mask (pepPushChan cb shift mask
      (pepPushChan cb shift mask st (pepByte c 0)) (pepByte c 1)) (pepByte c 2)
    let st2 := if onlyRgb then st1 else pepPushChan cb shift mask st1 (pepByte c 3)
    let fl := pepBitFlush 4 st2 out
    pep_serialize_pal_packed p cb shift mask onlyRgb n (i + 1) fl.1 fl.2

/-- Serialize the palette at 8 bits per channel: raw bytes, alpha
omitted when `only_rgb`. -/
def pep_serialize_pal8 (p : Pep) (onlyRgb : Bool) : Nat → Nat → List Nat
  | 0, _ => []
  | n + 1, i =>
    let c := p.palette.getD i 0
    (pepByte c 0 :: pepByte c 1 :: pepByte c 2 :: (if onlyRgb then [] else [pepByte c 3]))
      ++ pep_serialize_pal8 p onlyRgb n (i + 1)

/-- `pep_serialize`: the container bytes and the reported `out_size`.
The C function returns `NULL` and size 0 on an invalid image.  The
returned list is exactly the bytes the function writes (the two spare
bytes of its allocation are never written nor counted); `out_size` is
the pointer difference `out_bytes_ref - out_bytes`, computed from
`bytes_size` as the C does. -/
def pep_serialize (inPep : Option Pep) : Option (List Nat) × Nat :=
  match inPep with
  | none => (none, 0)
  | some p =>
    if p.width = 0 ∨ p.height = 0 ∨ p.bytes_size = 0 ∨ p.bytes = none then (none, 0)
    else
      let paletteCount := if p.palette_size = 0 then 256 else p.palette_size
      let w := p.width - 1
      let h := p.height - 1
      let isSmall := w ≤ 255 ∧ h ≤ 255
      let isBitmap := pepIsBitmap p paletteCount
      let onlyRgb := isBitmap ||
        (List.range paletteCount).all (fun i => pepByte (p.palette.getD i 0) 3 == 255)
      let flags := (p.format.val &&& 3) ||| ((p.channel_bits.val &&& 3) <<< 2) |||
        ((if isSmall then 1 else 0) <<< 4) ||| ((if onlyRgb then 1 else 0) <<< 5) |||
        ((if isBitmap then 1 else 0) <<< 6)
      let dims :=
        if isSmall then [w % 256, h % 256]
        else
          let packed := ((w &&& 0xfff) <<< 12) ||| (h &&& 0xfff)
          [(packed >>> 16) % 256, (packed >>> 8) % 256, packed % 256]
      let sizeBytes := pep_varint 5 (p.bytes_size % U32)
      let cb := 1 <<< p.channel_bits.val
      let paletteBytes :=
        if isBitmap then []
        else
          (p.palette_size % 256) ::
            (if cb = 8 then pep_serialize_pal8 p onlyRgb paletteCount 0
             else pep_serialize_pal_packed p cb (8 - cb) ((1 <<< cb) - 1) onlyRgb
               paletteCount 0 (0, 0) [])
      let front := flags :: (dims ++ sizeBytes ++ paletteBytes)
      let data := (p.bytes.getD []).take p.bytes_size
      (some (front ++ data ++ [0]), front.length + p.bytes_size)

/-- The C enum read back from two flag bits. -/
def pepFormatOfNat (n : Nat) : PepFormat :=
  if n = 0 then .rgba else if n = 1 then .bgra else if n = 2 then .abgr else .argb

/-- The channel-bits enum read back from two flag bits. -/
def pepChannelBitsOfNat (n : Nat) : PepChannelBits :=
  if n = 0 then .bits1 else if n = 1 then .bits2 else if n = 2 then .bits4 else .bits8

/-- The variable-length size decoding loop of `pep_deserialize`.
`shift` is a `uint8`; a shift amount of 32 or more on the `uint32`
accumulation is undefined behavior in C, modeled here by reducing the
shifted value `% U32`.  Reading past the input yields byte 0, which
terminates the loop. -/
def pep_read_varint : List Nat → Nat → Nat → Nat × List Nat
  | [], _, acc => (acc, [])
  | b :: rest, shift, acc =>
    let acc1 := (acc ||| (((b % 256) % 128) <<< shift)) % U32
    if (b % 256) / 128 = 1 then pep_read_varint rest ((shift + 7) % 256) acc1
    else (acc1, rest)

/-- Read one palette channel in the packed (below 8 bits) deserializer:
refill the bit buffer when it holds fewer than `cb` bits (one byte
always suffices since `cb <= 8`), extract, and scale back to 8 bits by
bit replication. -/
def pep_deser_chan (cb mask : Nat) (st : Nat × Nat × List Nat) : Nat × (Nat × Nat × List Nat) :=
  let st1 :=
    if st.2.1 < cb then
      let rb := pepReadByte st.2.2
      (((st.1 <<< 8) ||| rb.1) % U32, st.2.1 + 8, rb.2)
    else st
  let cnt := st1.2.1 - cb
  let v := (st1.1 >>> cnt) &&& mask
  let scaled0 := (v <<< (8 - cb)) % 256
  let scaled1 := if cb < 8 then scaled0 ||| (scaled0 >>> cb) else scaled0
  let scaled2 := if cb < 4 then scaled1 ||| (scaled1 >>> (2 * cb)) else scaled1
  (scaled2, (st1.1, cnt, st1.2.2))

/-- Deserialize the palette in the packed (below 8 bits) case. -/
def pep_deser_pal_packed (cb mask : Nat) (onlyRgb : Bool) :
    Nat → Nat → (Nat × Nat × List Nat) → List Nat → List Nat × List Nat
  | 0, _, st, palette => (palette, st.2.2)
  | n + 1, i, st, palette =>
    let r0 := pep_deser_chan cb mask st
    let r1 := pep_deser_chan cb mask r0.2
    let r2 := pep_deser_chan cb mask r1.2
    let r3 := if onlyRgb then (255, r2.2) else pep_deser_chan cb mask r2.2
    let color := pepOfBytes r0.1 r1.1 r2.1 r3.1
    pep_deser_pal_packed cb mask onlyRgb n (i + 1) r3.2 (palette.set i color)

/-- Deserialize the palette at 8 bits per channel. -/
def pep_deser_pal8 (onlyRgb : Bool) :
    Nat → Nat → List Nat → List Nat → List Nat × List Nat
  | 0, _, rest, palette => (palette, rest)
  | n + 1, i, rest, palette =>
    let rb0 := pepReadByte rest
    let rb1 := pepReadByte rb0.2
    let rb2 := pepReadByte rb1.2
    let rb3 := if onlyRgb then (255, rb2.2) else pepReadByte rb2.2
    let color := pepOfBytes rb0.1 rb1.1 rb2.1 rb3.1
    pep_deser_pal8 onlyRgb n (i + 1) rb3.2 (palette.set i color)

/-- `pep_deserialize`.  Reads past the end of the input are modeled as
byte 0; the copied compressed bytes are padded with 0 where the C
`memcpy` would read unowned memory. -/
def pep_deserialize (inBytes : Option (List Nat)) : Pep :=
  match inBytes with
  | none => pepZero
  | some bs =>
    let rb := pepReadByte bs
    let flags := rb.1
    let format := pepFormatOfNat (flags % 4)
    let channelBits := pepChannelBitsOfNat ((flags >>> 2) % 4)
    let isSmall := (flags >>> 4) % 2
    let onlyRgb := (flags >>> 5) % 2
    let isBitmap := (flags >>> 6) % 2
    let dims :=
      if isSmall = 1 then
        let rw := pepReadByte rb.2
        let rh := pepReadByte rw.2
        (rw.1, rh.1, rh.2)
      else
        let r0 := pepReadByte rb.2
        let r1 := pepReadByte r0.2
        let r2 := pepReadByte r1.2
        let packed := (r0.1 <<< 16) ||| (r1.1 <<< 8) ||| r2.1
        ((packed >>> 12) &&& 0xfff, packed &&& 0xfff, r2.2)
    let sz := pep_read_varint dims.2.2 0 0
    let bytesSize := sz.1
    let pal :=
      if isBitmap = 1 then
        let p0 := if format.val ≤ 1 then 0xff000000 else 0x000000ff
        (((List.replicate 256 0).set 1 0xffffffff).set 0 p0, 2, sz.2)
      else
        let rp := pepReadByte sz.2
        let paletteSize := rp.1
        let paletteCount := if paletteSize = 0 then 256 else paletteSize
        let cb := 1 <<< channelBits.val
        let r :=
          if cb = 8 then
            pep_deser_pal8 (onlyRgb = 1) paletteCount 0 rp.2 (List.replicate 256 0)
          else
            pep_deser_pal_packed cb ((1 <<< cb) - 1) (onlyRgb = 1) paletteCount 0
              (0, 0, rp.2) (List.replicate 256 0)
        (r.1, paletteSize, r.2)
    { bytes := some (pal.2.2.take bytesSize ++
        List.replicate (bytesSize - pal.2.2.length) 0),
      bytes_size := bytesSize, width := dims.1 + 1, height := dims.2.1 + 1,
      format := format, palette := pal.1, palette_size := pal.2.1,
      channel_bits := channelBits }

/-- A hand-built valid image used by the C9 counterexample: its last
compressed byte is 4, not 0. -/
def pepC9input : Pep :=
  { bytes := some [1, 2, 3, 4], bytes_size := 4, width := 1, height := 1,
    format := .rgba, palette := 0x11223344 :: List.replicate 255 0,
    palette_size := 1, channel_bits := .bits8 }

/-- The first-appearance subsequence of a pixel stream: each value is
kept the first time it occurs and dropped afterwards.  (Specification
side of the palette characterization; `seen` accumulates the values
already emitted.) -/
def pepFirstOcc (seen : List Nat) : List Nat → List Nat
  | [] => []
  | x :: xs => if x ∈ seen then pepFirstOcc seen xs else x :: pepFirstOcc (seen ++ [x]) xs

/-- Encoder configuration of the 4097-by-1 all-`0x07` compress run:
palette `[7]`, one bit per index, eight indices per byte. -/
def pepC8cfg : EncCfg := EncCfg.mk [7] 1 1 8
/-- Encoder state of the 4097-by-1 run after 250 pixels. -/
def pepC8S1 : EncSt :=
(EncSt.mk ((List.replicate 256 pepCtxZero ++ [(PepCtx.mk ((List.replicate 257 1).set 0 3) 259)]).set 0 (PepCtx.mk (((List.replicate 257 0).set 0 61).set 256 1) 62)) (EncAC.mk 0 438855275) 0 128 2 0 true)
/-- Encoder state of the 4097-by-1 run after 500 pixels. -/
def pepC8S2 : EncSt :=
(EncSt.mk ((List.replicate 256 pepCtxZero ++ [(PepCtx.mk ((List.replicate 257 1).set 0 3) 259)]).set 0 (PepCtx.mk (((List.replicate 257 0).set 0 123).set 256 1) 124)) (EncAC.mk 0 308414238) 0 128 4 0 true)
/-- Encoder state of the 4097-by-1 run after 750 pixels. -/
def pepC8S3 : EncSt :=
(EncSt.mk ((List.replicate 256 pepCtxZero ++ [(PepCtx.mk ((List.replicate 257 1).set 0 3) 259)]).set 0 (PepCtx.mk (((List.replicate 257 0).set 0 121).set 256 1) 122)) (EncAC.mk 0 220312911) 0 255 6 0 true)
/-- Encoder state of the 4097-by-1 run after 1000 pixels. -/
def pepC8S4 : EncSt :=
(EncSt.mk ((List.replicate 256 pepCtxZero ++ [(PepCtx.mk ((List.replicate 257 1).set 0 3) 259)]).set 0 (PepCtx.mk (((List.replicate 257 0).set 0 185).set 256 1) 186)) (EncAC.mk 0 178045275) 0 255 0 0 true)
/-- Encoder state of the 4097-by-1 run after 1250 pixels. -/
def pepC8S5 : EncSt :=
(EncSt.mk ((List.replicate 256 pepCtxZero ++ [(PepCtx.mk ((List.replicate 257 1).set 0 3) 259)]).set 0 (PepCtx.mk (((List.replicate 257 0).set 0 247).set 256 1) 248)) (EncAC.mk 0 154032235) 0 255 2 0 true)
/-- Encoder state of the 4097-by-1 run after 1500 pixels. -/
def pepC8S6 : EncSt :=
(EncSt.mk ((List.replicate 256 pepCtxZero ++ [(PepCtx.mk ((List.replicate 257 1).set 0 3) 259)]).set 0 (PepCtx.mk (((List.replicate 257 0).set 0 182).set 256 1) 183)) (EncAC.mk 0 127053000) 0 382 4 0 true)
/-- Encoder state of the 4097-by-1 run after 1750 pixels. -/
def pepC8S7 : EncSt :=
(EncSt.mk ((List.replicate 256 pepCtxZero ++ [(PepCtx.mk ((List.replicate 257 1).set 0 3) 259)]).set 0 (PepCtx.mk (((List.replicate 257 0).set 0 244).set 256 1) 245)) (EncAC.mk 0 109689162) 0 382 6 0 true)
/-- Encoder state of the 4097-by-1 run after 2000 pixels. -/
def pepC8S8 : EncSt :=
(EncSt.mk ((List.replicate 256 pepCtxZero ++ [(PepCtx.mk ((List.replicate 257 1).set 0 3) 259)]).set 0 (PepCtx.mk (((List.replicate 257 0).set 0 308).set 256 1) 309)) (EncAC.mk 0 97605738) 0 382 0 0 true)
/-- Encoder state of the 4097-by-1 run after 2250 pixels. -/
def pepC8S9 : EncSt :=
(EncSt.mk ((List.replicate 256 pepCtxZero ++ [(PepCtx.mk ((List.replicate 257 1).set 0 3) 259)]).set 0 (PepCtx.mk (((List.replicate 257 0).set 0 370).set 256 1) 371)) (EncAC.mk 0 89036128) 0 382 2 0 true)
/-- Encoder state of the 4097-by-1 run after 2500 pixels. -/
def pepC8S10 : EncSt :=
(EncSt.mk ((List.replicate 256 pepCtxZero ++ [(PepCtx.mk ((List.replicate 257 1).set 0 3) 259)]).set 0 (PepCtx.mk (((List.replicate 257 0).set 0 241).set 256 1) 242)) (EncAC.mk 0 77981876) 0 509 4 0 true)
/-- Encoder state of the 4097-by-1 run after 2750 pixels. -/
def pepC8S11 : EncSt :=
(EncSt.mk ((List.replicate 256 pepCtxZero ++ [(PepCtx.mk ((List.replicate 257 1).set 0 3) 259)]).set 0 (PepCtx.mk (((List.replicate 257 0).set 0 303).set 256 1) 304)) (EncAC.mk 0 69528592) 0 509 6 0 true)
/-- Encoder state of the 4097-by-1 run after 3000 pixels. -/
def pepC8S12 : EncSt :=
(EncSt.mk ((List.replicate 256 pepCtxZero ++ [(PepCtx.mk ((List.replicate 257 1).set 0 3) 259)]).set 0 (PepCtx.mk (((List.replicate 257 0).set 0 367).set 256 1) 368)) (EncAC.mk 0 63161790) 0 509 0 0 true)
/-- Encoder state of the 4097-by-1 run after 3250 pixels. -/
def pepC8S13 : EncSt :=
(EncSt.mk ((List.replicate 256 pepCtxZero ++ [(PepCtx.mk ((List.replicate 257 1).set 0 3) 259)]).set 0 (PepCtx.mk (((List.replicate 257 0).set 0 429).set 256 1) 430)) (EncAC.mk 0 58408476) 0 509 2 0 true)
/-- Encoder state of the 4097-by-1 run after 3500 pixels. -/
def pepC8S14 : EncSt :=
(EncSt.mk ((List.replicate 256 pepCtxZero ++ [(PepCtx.mk ((List.replicate 257 1).set 0 3) 259)]).set 0 (PepCtx.mk (((List.replicate 257 0).set 0 491).set 256 1) 492)) (EncAC.mk 0 54585603) 0 509 4 0 true)
/-- Encoder state of the 4097-by-1 run after 3750 pixels. -/
def pepC8S15 : EncSt :=
(EncSt.mk ((List.replicate 256 pepCtxZero ++ [(PepCtx.mk ((List.replicate 257 1).set 0 3) 259)]).set 0 (PepCtx.mk (((List.replicate 257 0).set 0 299).set 256 1) 300)) (EncAC.mk 0 49497426) 0 636 6 0 true)
/-- Encoder state of the 4097-by-1 run after 4000 pixels. -/
def pepC8S16 : EncSt :=
(EncSt.mk ((List.replicate 256 pepCtxZero ++ [(PepCtx.mk ((List.replicate 257 1).set 0 3) 259)]).set 0 (PepCtx.mk (((List.replicate 257 0).set 0 363).set 256 1) 364)) (EncAC.mk 0 44910927) 0 636 0 0 true)
/-- Encoder state of the 4097-by-1 run after 4097 pixels. -/
def pepC8S17 : EncSt :=
(EncSt.mk ((List.replicate 256 pepCtxZero ++ [(PepCtx.mk ((List.replicate 257 1).set 0 3) 259)]).set 0 (PepCtx.mk (((List.replicate 257 0).set 0 387).set 256 1) 388)) (EncAC.mk 0 43491910) 0 636 1 0 true)
/-- Encoder state of the 4097-by-1 run after the tail group. -/
def pepC8T : EncSt :=
(EncSt.mk ((List.replicate 256 pepCtxZero ++ [(PepCtx.mk ((List.replicate 257 1).set 0 3) 259)]).set 0 (PepCtx.mk (((List.replicate 257 0).set 0 389).set 256 1) 390)) (EncAC.mk 0 43379604) 0 636 0 0 true)

/-- Encoder configuration of the escape-overflow demonstration: a
254-color palette, eight bits per index, one index per byte. -/
def pepC4cfg : EncCfg := EncCfg.mk (List.range 254) 254 8 1

/-- An order-2 context at the model cap: 131 symbols at frequency 125
(each `1 + 2k` reachable by `PEP_UPDATE`), escape slot at 7, total
16382 `= PROB_MAX - 2`. -/
def pepC4ctx : PepCtx :=
  PepCtx.mk (List.replicate 131 125 ++ List.replicate 125 0 ++ [7]) 16382

/-- Encoder state with `pepC4ctx` installed as context 0 and everything
else at its initial value. -/
def pepC4St : EncSt :=
  { contexts := (List.replicate 256 pepCtxZero ++ [pepCtxOrder0]).set 0 pepC4ctx,
    ac := { low := 0, range := 4294967295 },
    contextId := 0, freqMax := pepFreqMaxInit, iib := 0, symbol := 0, alive := true }

/-! ## Claim theorems -/

/-- The encoder's renormalization loop can only exit through its break,
whose guard requires `range >= PROB_MAX`. -/
theorem encNormalize_range_lb : ∀ (fuel : Nat) (ac : EncAC) (r : List Nat × EncAC),
    _pep_arith_encode_normalize fuel ac = some r → pepProbMaxValue ≤ r.2.range := by
  intro fuel
  induction fuel with
  | zero => intro ac r h; exact absurd h (by simp [_pep_arith_encode_normalize])
  | succ n ih =>
    intro ac r h
    simp only [_pep_arith_encode_normalize] at h
    split at h
    · split at h
      · injection h with h2
        rw [← h2]
        assumption
      · split at h
        · exact absurd h (by simp)
        · next r' heq =>
            injection h with h2
            rw [← h2]
            exact ih _ r' heq
    · split at h
      · exact absurd h (by simp)
      · next r' heq =>
          injection h with h2
          rw [← h2]
          exact ih _ r' heq

/-- The decoder's renormalization loop likewise only exits when
`range >= PROB_MAX` holds. -/
theorem decRenorm_range_lb : ∀ (fuel : Nat) (ac : DecAC) (r : DecAC),
    pep_arith_decode_renorm fuel ac = some r → pepProbMaxValue ≤ r.range := by
  intro fuel
  induction fuel with
  | zero => intro ac r h; exact absurd h (by simp [pep_arith_decode_renorm])
  | succ n ih =>
    intro ac r h
    simp only [pep_arith_decode_renorm] at h
    split at h
    · split at h
      · exact ih _ _ h
      · injection h with h2
        rw [← h2]
        omega
    · exact ih _ _ h

/-- C3: Coder range invariant: in both the encoder and the decoder,
every time the renormalization loop terminates (each `some` result of
`_pep_arith_encode_normalize` and each exit of the renormalization loop
inside `_pep_arith_decode_update`), the coder's `range` register
satisfies `range >= 2^14` (`PROB_MAX`). -/
theorem pep_claim_C3 :
    (∀ (fuel : Nat) (ac : EncAC) (r : List Nat × EncAC),
        _pep_arith_encode_normalize fuel ac = some r → pepProbMaxValue ≤ r.2.range) ∧
    (∀ (fuel : Nat) (ac : DecAC) (r : DecAC),
        pep_arith_decode_renorm fuel ac = some r → pepProbMaxValue ≤ r.range) :=
  ⟨encNormalize_range_lb, decRenorm_range_lb⟩

/-- Witness for C3: both loops terminate at the initial registers, and
the resulting ranges are at least `2^14`. -/
theorem pep_claim_C3_witness :
    pepProbMaxValue ≤ (([], EncAC.mk 0 4294967295) : List Nat × EncAC).2.range ∧
    pepProbMaxValue ≤ (DecAC.mk [] 0 4294967295 0).range :=
  ⟨pep_claim_C3.1 64 ⟨0, 4294967295⟩ ([], ⟨0, 4294967295⟩) (by decide),
   pep_claim_C3.2 64 ⟨[], 0, 4294967295, 0⟩ ⟨[], 0, 4294967295, 0⟩ (by decide)⟩

/-- C1 (code bug): at the 1-by-1 image with pixel `0x11223344` in
`rgba`, the decoder iterates `(width * height) / indices_per_byte =
1 / 8 = 0` times and never writes the single output cell (the C code
returns the indeterminate contents of a fresh `malloc`), while the
encoder did emit the pixel in a trailing partial packed symbol.  The
round-trip claim `decompress (compress pixels) = pixels` therefore
fails on every image whose area is not a multiple of
`indices_per_byte`. -/
theorem pep_claim_C1_bug :
    pep_decompress (pep_compress (some [0x11223344]) 1 1 .rgba .bits8) .rgba 0 0
      = some [none] := by decide

/-- C7 counterexample: the 1-by-1 scenario's claims that the compressed
stream is exactly the four flush bytes and that decompression returns
the input pixel are both false: the stream has five bytes (the tail
packed symbol forces one renormalization byte before the flush), and
the decoder writes no pixel at all. -/
theorem pep_claim_C7_counterexample :
    ¬((pep_compress (some [0x11223344]) 1 1 .rgba .bits8).map Pep.bytes_size = some 4 ∧
      pep_decompress (pep_compress (some [0x11223344]) 1 1 .rgba .bits8) .rgba 0 0
        = some [some 0x11223344]) := by decide

/-- C7 (amended): the 1-by-1 image with pixel `0x11223344` in `rgba`
compresses to palette `[0x11223344]`, `bits_per_index = 1`,
`indices_per_byte = 8`; the encoder emits one packed symbol (the
partial tail group), so the stream is the five bytes `[0,0,0,0,0]`
(one renormalization byte plus the four flush bytes); the decoder
iterates `1 / 8 = 0` times and leaves the single output cell
unwritten. -/
theorem pep_claim_C7 :
    pep_bits_to_fit 1 = 1 ∧ 8 / pep_bits_to_fit 1 = 8 ∧
    pep_compress (some [0x11223344]) 1 1 .rgba .bits8 = some
      { bytes := some [0, 0, 0, 0, 0], bytes_size := 5, width := 1, height := 1,
        format := .rgba, palette := 0x11223344 :: List.replicate 255 0,
        palette_size := 1, channel_bits := .bits8 } ∧
    pep_decompress (pep_compress (some [0x11223344]) 1 1 .rgba .bits8) .rgba 0 0
      = some [none] := by decide

/-- C2 (code bug): serializing a two-color image whose palette is
`[white, black]` (in that order) sets the `is_bitmap` fast path, and
deserialization reconstructs the palette as `[black, white]` — the
container stores no bit recording the original order, so
`deserialize (serialize image)` swaps the two palette entries and the
decoded image exchanges its two colors.  This contradicts the claimed
palette preservation ("black and white in either order"). -/
theorem pep_claim_C2_bug :
    (pep_compress (some [0xffffffff, 0xff000000]) 2 1 .rgba .bits8).map
        (fun p => p.palette.take 2) = some [0xffffffff, 0xff000000] ∧
    (pep_deserialize (pep_serialize
        (pep_compress (some [0xffffffff, 0xff000000]) 2 1 .rgba .bits8)).1).palette.take 2
      = [0xff000000, 0xffffffff] := by decide

/-- C9 counterexample: the reported `out_size` does not count the
trailing sentinel, and the byte at `out_size - 1` is the last
compressed byte (here 4), not the NUL: the claim's accounting is off by
one. -/
theorem pep_claim_C9_counterexample :
    ¬(((pep_serialize (some pepC9input)).1.getD []).length = (pep_serialize (some pepC9input)).2 ∧
      ((pep_serialize (some pepC9input)).1.getD []).getD
        ((pep_serialize (some pepC9input)).2 - 1) 0 = 0) := by decide

/-- C5 counterexample: `freq_max` is a `uint16`; at `F = 65535` a
rescale adds `(256 - 2) >> 1 = 127` and wraps to 126, so the threshold
decreases rather than increasing by `(256 - palette_size) / 2`.  (The
context here has sum 16382, so the added 2 triggers the rescale.) -/
theorem pep_claim_C5_counterexample :
    (pep_update ⟨((List.replicate 257 0).set 3 16380).set 5 2, 16382⟩ 3 65535 2).2 = 126 ∧
    (pep_update ⟨((List.replicate 257 0).set 3 16380).set 5 2, 16382⟩ 3 65535 2).2 < 65535 :=
  by decide

/-- C6 counterexample: scanning 256 distinct colors, the palette stops
at 255 entries (the guard `(palette_size + 1) < 256` refuses the 256th),
and the color beyond the first 255 unique values is encoded as palette
id 255 (the search walks off the full palette), not id 0. -/
theorem pep_claim_C6_counterexample :
    (pep_palette_build (List.range 256)).length ≠ 256 ∧
    pep_palette_index (pep_palette_build (List.range 256)) 255 ≠ 0 := by decide

/-- A bitwise-or of two numbers below `2^n` stays below `2^n`. -/
theorem pep_lor_lt {a b n : Nat} (ha : a < 2 ^ n) (hb : b < 2 ^ n) : a ||| b < 2 ^ n := by
  apply Nat.lt_of_testBit n
  · rw [Nat.testBit_lor, Nat.testBit_lt_two_pow ha, Nat.testBit_lt_two_pow hb]
    rfl
  · exact Nat.testBit_two_pow_self
  · intro j hj
    rw [Nat.testBit_lor,
      Nat.testBit_lt_two_pow (lt_trans ha (Nat.pow_lt_pow_right (by norm_num) hj)),
      Nat.testBit_lt_two_pow (lt_trans hb (Nat.pow_lt_pow_right (by norm_num) hj)),
      Nat.testBit_two_pow_of_ne (Nat.ne_of_lt hj)]
    rfl

/-- A masked value is bounded by its mask. -/
theorem pep_land_lt {c m n : Nat} (hm : m < 2 ^ n) : c &&& m < 2 ^ n :=
  lt_of_le_of_lt Nat.and_le_right hm

/-- Shifting a masked byte field keeps the value below `2^32`. -/
theorem pep_shl_lt {c m k n : Nat} (h : m * 2 ^ k < 2 ^ n) : (c &&& m) <<< k < 2 ^ n := by
  rw [Nat.shiftLeft_eq]
  exact lt_of_le_of_lt (Nat.mul_le_mul_right _ Nat.and_le_right) h

/-- Right shifts do not increase a value. -/
theorem pep_shr_le (c k : Nat) : c >>> k ≤ c := by
  rw [Nat.shiftRight_eq_div_pow]
  exact Nat.div_le_self c (2 ^ k)

/-- Each of the five reformat formulas maps `uint32` values to `uint32`
values. -/
theorem pep_reformat_lt (c : Nat) (hc : c < 4294967296) (a b : PepFormat) :
    _pep_reformat c a b < 4294967296 := by
  have h32 : (4294967296 : Nat) = 2 ^ 32 := by norm_num
  rw [h32] at hc ⊢
  have hshr : ∀ m : Nat, m < 2 ^ 32 → ∀ k, (c &&& m) >>> k < 2 ^ 32 :=
    fun m hm k => lt_of_le_of_lt (pep_shr_le _ _) (pep_land_lt hm)
  unfold _pep_reformat pepSwapAL pepSwapAF pepRev pepRotUp pepRotDown
  split
  · exact hc
  · split
    · exact pep_lor_lt (pep_lor_lt (pep_land_lt (by norm_num)) (pep_shl_lt (by norm_num)))
        (hshr _ (by norm_num) _)
    · split
      · exact pep_lor_lt (pep_lor_lt (pep_land_lt (by norm_num)) (pep_shl_lt (by norm_num)))
          (hshr _ (by norm_num) _)
      · split
        · exact pep_lor_lt (pep_lor_lt (pep_lor_lt (pep_shl_lt (by norm_num))
            (pep_shl_lt (by norm_num))) (hshr _ (by norm_num) _)) (hshr _ (by norm_num) _)
        · split
          · exact pep_lor_lt (hshr _ (by norm_num) _) (pep_shl_lt (by norm_num))
          · exact pep_lor_lt (pep_shl_lt (by norm_num)) (hshr _ (by norm_num) _)

/-- Bits at positions 32 and beyond of a `uint32` value are clear. -/
theorem pep_testBit_high {v i : Nat} (hv : v < 4294967296) (hi : 32 ≤ i) :
    v.testBit i = false := by
  apply Nat.testBit_lt_two_pow
  calc v < 4294967296 := hv
  _ = 2 ^ 32 := by norm_num
  _ ≤ 2 ^ i := Nat.pow_le_pow_right (by norm_num) hi

/-- `pepSwapAL` produces a `uint32` value. -/
theorem pepSwapAL_lt (c : Nat) : pepSwapAL c < 4294967296 := by
  have h32 : (4294967296 : Nat) = 2 ^ 32 := by norm_num
  rw [h32]
  exact pep_lor_lt (pep_lor_lt (pep_land_lt (by norm_num)) (pep_shl_lt (by norm_num)))
    (lt_of_le_of_lt (pep_shr_le _ _) (pep_land_lt (by norm_num)))

/-- `pepSwapAF` produces a `uint32` value. -/
theorem pepSwapAF_lt (c : Nat) : pepSwapAF c < 4294967296 := by
  have h32 : (4294967296 : Nat) = 2 ^ 32 := by norm_num
  rw [h32]
  exact pep_lor_lt (pep_lor_lt (pep_land_lt (by norm_num)) (pep_shl_lt (by norm_num)))
    (lt_of_le_of_lt (pep_shr_le _ _) (pep_land_lt (by norm_num)))

/-- `pepRev` produces a `uint32` value. -/
theorem pepRev_lt (c : Nat) : pepRev c < 4294967296 := by
  have h32 : (4294967296 : Nat) = 2 ^ 32 := by norm_num
  rw [h32]
  exact pep_lor_lt (pep_lor_lt (pep_lor_lt (pep_shl_lt (by norm_num)) (pep_shl_lt (by norm_num)))
    (lt_of_le_of_lt (pep_shr_le _ _) (pep_land_lt (by norm_num))))
    (lt_of_le_of_lt (pep_shr_le _ _) (pep_land_lt (by norm_num)))

/-- `pepRotUp` produces a `uint32` value. -/
theorem pepRotUp_lt (c : Nat) : pepRotUp c < 4294967296 := by
  have h32 : (4294967296 : Nat) = 2 ^ 32 := by norm_num
  rw [h32]
  exact pep_lor_lt (lt_of_le_of_lt (pep_shr_le _ _) (pep_land_lt (by norm_num)))
    (pep_shl_lt (by norm_num))

/-- `pepRotDown` produces a `uint32` value. -/
theorem pepRotDown_lt (c : Nat) : pepRotDown c < 4294967296 := by
  have h32 : (4294967296 : Nat) = 2 ^ 32 := by norm_num
  rw [h32]
  exact pep_lor_lt (pep_shl_lt (by norm_num))
    (lt_of_le_of_lt (pep_shr_le _ _) (pep_land_lt (by norm_num)))

/-- The alpha-last R/B swap is an involution on `uint32` colors. -/
theorem pepSwapAL_inv (c : Nat) (hc : c < 4294967296) : pepSwapAL (pepSwapAL c) = c := by
  have htb : ∀ j, 32 ≤ j → c.testBit j = false := fun j hj => pep_testBit_high hc hj
  apply Nat.eq_of_testBit_eq
  intro i
  rcases Nat.lt_or_ge i 32 with hi | hi
  · simp only [pepSwapAL]
    interval_cases i <;>
      (simp only [Nat.testBit_lor, Nat.testBit_land, Nat.testBit_shiftLeft,
         Nat.testBit_shiftRight, htb] <;> simp [Nat.testBit_to_div_mod])
  · rw [pep_testBit_high (pepSwapAL_lt _) hi, pep_testBit_high hc hi]

/-- The alpha-first R/B swap is an involution on `uint32` colors. -/
theorem pepSwapAF_inv (c : Nat) (hc : c < 4294967296) : pepSwapAF (pepSwapAF c) = c := by
  have htb : ∀ j, 32 ≤ j → c.testBit j = false := fun j hj => pep_testBit_high hc hj
  apply Nat.eq_of_testBit_eq
  intro i
  rcases Nat.lt_or_ge i 32 with hi | hi
  · simp only [pepSwapAF]
    interval_cases i <;>
      (simp only [Nat.testBit_lor, Nat.testBit_land, Nat.testBit_shiftLeft,
         Nat.testBit_shiftRight, htb] <;> simp [Nat.testBit_to_div_mod])
  · rw [pep_testBit_high (pepSwapAF_lt _) hi, pep_testBit_high hc hi]

/-- The byte reverse is an involution on `uint32` colors. -/
theorem pepRev_inv (c : Nat) (hc : c < 4294967296) : pepRev (pepRev c) = c := by
  have htb : ∀ j, 32 ≤ j → c.testBit j = false := fun j hj => pep_testBit_high hc hj
  apply Nat.eq_of_testBit_eq
  intro i
  rcases Nat.lt_or_ge i 32 with hi | hi
  · simp only [pepRev]
    interval_cases i <;>
      (simp only [Nat.testBit_lor, Nat.testBit_land, Nat.testBit_shiftLeft,
         Nat.testBit_shiftRight, htb] <;> simp [Nat.testBit_to_div_mod])
  · rw [pep_testBit_high (pepRev_lt _) hi, pep_testBit_high hc hi]

/-- Rotating the alpha byte down then up restores the color. -/
theorem pepRot_inv (c : Nat) (hc : c < 4294967296) : pepRotDown (pepRotUp c) = c := by
  have htb : ∀ j, 32 ≤ j → c.testBit j = false := fun j hj => pep_testBit_high hc hj
  apply Nat.eq_of_testBit_eq
  intro i
  rcases Nat.lt_or_ge i 32 with hi | hi
  · simp only [pepRotUp, pepRotDown]
    interval_cases i <;>
      (simp only [Nat.testBit_lor, Nat.testBit_land, Nat.testBit_shiftLeft,
         Nat.testBit_shiftRight, htb] <;> simp [Nat.testBit_to_div_mod])
  · rw [pep_testBit_high (pepRotDown_lt _) hi, pep_testBit_high hc hi]

/-- Rotating the alpha byte up then down restores the color. -/
theorem pepRot_inv' (c : Nat) (hc : c < 4294967296) : pepRotUp (pepRotDown c) = c := by
  have htb : ∀ j, 32 ≤ j → c.testBit j = false := fun j hj => pep_testBit_high hc hj
  apply Nat.eq_of_testBit_eq
  intro i
  rcases Nat.lt_or_ge i 32 with hi | hi
  · simp only [pepRotUp, pepRotDown]
    interval_cases i <;>
      (simp only [Nat.testBit_lor, Nat.testBit_land, Nat.testBit_shiftLeft,
         Nat.testBit_shiftRight, htb] <;> simp [Nat.testBit_to_div_mod])
  · rw [pep_testBit_high (pepRotUp_lt _) hi, pep_testBit_high hc hi]

/-- C10: Reformat round-trip: for every 32-bit color `c` and all format
pairs `a`, `b`, converting `a -> b` then `b -> a` restores `c`, and
converting `a -> a` is the identity; no channel-order conversion loses
color information. -/
theorem pep_claim_C10 : ∀ (c : Nat), c < 4294967296 → ∀ (a b : PepFormat),
    _pep_reformat (_pep_reformat c a b) b a = c ∧ _pep_reformat c a a = c := by
  intro c hc a b
  have hx02 : (0 : Nat) ^^^ 2 = 2 := by decide
  have hx03 : (0 : Nat) ^^^ 3 = 3 := by decide
  have hx12 : (1 : Nat) ^^^ 2 = 3 := by decide
  have hx13 : (1 : Nat) ^^^ 3 = 2 := by decide
  have hx20 : (2 : Nat) ^^^ 0 = 2 := by decide
  have hx21 : (2 : Nat) ^^^ 1 = 3 := by decide
  have hx30 : (3 : Nat) ^^^ 0 = 3 := by decide
  have hx31 : (3 : Nat) ^^^ 1 = 2 := by decide
  constructor
  · cases a <;> cases b
    case rgba.rgba => simp [_pep_reformat]
    case rgba.bgra =>
      simp [_pep_reformat, PepFormat.val]
      exact pepSwapAL_inv c hc
    case rgba.abgr =>
      simp [_pep_reformat, PepFormat.val, hx02, hx20]
      exact pepRev_inv c hc
    case rgba.argb =>
      simp [_pep_reformat, PepFormat.val, hx03, hx30]
      exact pepRot_inv c hc
    case bgra.rgba =>
      simp [_pep_reformat, PepFormat.val]
      exact pepSwapAL_inv c hc
    case bgra.bgra => simp [_pep_reformat]
    case bgra.abgr =>
      simp [_pep_reformat, PepFormat.val, hx12, hx21]
      exact pepRot_inv c hc
    case bgra.argb =>
      simp [_pep_reformat, PepFormat.val, hx13, hx31]
      exact pepRev_inv c hc
    case abgr.rgba =>
      simp [_pep_reformat, PepFormat.val, hx02, hx20]
      exact pepRev_inv c hc
    case abgr.bgra =>
      simp [_pep_reformat, PepFormat.val, hx12, hx21]
      exact pepRot_inv' c hc
    case abgr.abgr => simp [_pep_reformat]
    case abgr.argb =>
      simp [_pep_reformat, PepFormat.val]
      exact pepSwapAF_inv c hc
    case argb.rgba =>
      simp [_pep_reformat, PepFormat.val, hx03, hx30]
      exact pepRot_inv' c hc
    case argb.bgra =>
      simp [_pep_reformat, PepFormat.val, hx13, hx31]
      exact pepRev_inv c hc
    case argb.abgr =>
      simp [_pep_reformat, PepFormat.val]
      exact pepSwapAF_inv c hc
    case argb.argb => simp [_pep_reformat]
  · cases a <;> simp [_pep_reformat]

/-- Witness for C10 at the color `0x11223344` and the pair
`(rgba, abgr)`. -/
theorem pep_claim_C10_witness :
    _pep_reformat (_pep_reformat 0x11223344 .rgba .abgr) .abgr .rgba = 0x11223344 ∧
    _pep_reformat 0x11223344 .rgba .rgba = 0x11223344 :=
  pep_claim_C10 0x11223344 (by decide) .rgba .abgr

/-- A left fold of addition over a list equals the indexed sum of its
entries. -/
theorem pep_list_foldl_add (l : List Nat) :
    l.foldl (· + ·) 0 = ∑ i ∈ Finset.range l.length, l.getD i 0 := by
  have key : ∀ (l : List Nat) (a : Nat),
      l.foldl (· + ·) a = a + ∑ i ∈ Finset.range l.length, l.getD i 0 := by
    intro l
    induction l with
    | nil => intro a; simp
    | cons x xs ih =>
      intro a
      rw [List.foldl_cons, ih (a + x), List.length_cons, Finset.sum_range_succ']
      simp [Nat.add_assoc, Nat.add_comm x]
  rw [key l 0, Nat.zero_add]

/-- `getD` commutes with mapping the rescale function (which fixes 0,
the out-of-range default). -/
theorem pep_getD_map_rescale : ∀ (l : List Nat) (i : Nat),
    (l.map _pep_rescale_freq).getD i 0 = _pep_rescale_freq (l.getD i 0)
  | [], i => by simp [_pep_rescale_freq]
  | x :: xs, 0 => rfl
  | x :: xs, i + 1 => by
    simp only [List.map_cons, List.getD_cons_succ]
    exact pep_getD_map_rescale xs i

/-- C5 (amended): the `PEP_UPDATE` contract, with the 16-bit overflow
provisos the counterexample forces.  Adding 2 to `freq[s]` and `sum`,
the rescale fires exactly when `freq[s] >= F` or `sum >= 2^14`; it then
grows `F` by `(256 - palette_size) / 2`, halves every non-zero slot by
`(f + 1) / 2` leaving zero slots at zero, and recomputes `sum` as the
sum of the new frequencies; `F` starts at 128 and, absent 16-bit wrap,
never decreases. -/
theorem pep_claim_C5 (ctx : PepCtx) (s F ps : Nat)
    (hlen : ctx.freq.length = 257)
    (hf : ctx.freq.getD s 0 + 2 < 65536) (hs : ctx.sum + 2 < 4294967296)
    (hF : F + (256 - ps) / 2 < 65536) :
    pepFreqMaxInit = 128 ∧ pepEncInit.freqMax = 128 ∧
    (¬(F ≤ ctx.freq.getD s 0 + 2 ∨ 16384 ≤ ctx.sum + 2) →
        (pep_update ctx s F ps).1.freq = ctx.freq.set s (ctx.freq.getD s 0 + 2) ∧
        (pep_update ctx s F ps).1.sum = ctx.sum + 2 ∧
        (pep_update ctx s F ps).2 = F) ∧
    ((F ≤ ctx.freq.getD s 0 + 2 ∨ 16384 ≤ ctx.sum + 2) →
        (pep_update ctx s F ps).2 = F + (256 - ps) / 2 ∧
        (∀ i, (pep_update ctx s F ps).1.freq.getD i 0 =
          if (ctx.freq.set s (ctx.freq.getD s 0 + 2)).getD i 0 = 0 then 0
          else ((ctx.freq.set s (ctx.freq.getD s 0 + 2)).getD i 0 + 1) / 2) ∧
        (pep_update ctx s F ps).1.sum =
          ∑ i ∈ Finset.range 257, (pep_update ctx s F ps).1.freq.getD i 0) ∧
    F ≤ (pep_update ctx s F ps).2 := by
  have hU16 : U16 = 65536 := rfl
  have hU32 : U32 = 4294967296 := rfl
  have hfm : (ctx.freq.getD s 0 + 2) % U16 = ctx.freq.getD s 0 + 2 := by
    rw [hU16]; exact Nat.mod_eq_of_lt hf
  have hsm : (ctx.sum + 2) % U32 = ctx.sum + 2 := by
    rw [hU32]; exact Nat.mod_eq_of_lt hs
  have hFm : (F + (pepFreqEnd - ps) / 2) % U16 = F + (256 - ps) / 2 := by
    rw [hU16]; exact Nat.mod_eq_of_lt hF
  refine ⟨rfl, rfl, ?_, ?_, ?_⟩
  · intro hcond
    unfold pep_update
    rw [hfm, hsm, if_neg (by simpa [pepProbMaxValue] using hcond)]
    exact ⟨rfl, rfl, rfl⟩
  · intro hcond
    unfold pep_update
    rw [hfm, hsm, if_pos (by simpa [pepProbMaxValue] using hcond)]
    refine ⟨hFm, ?_, ?_⟩
    · intro i
      simp only [pep_getD_map_rescale, _pep_rescale_freq]
    · have hlen2 : ((ctx.freq.set s (ctx.freq.getD s 0 + 2)).map _pep_rescale_freq).length
          = 257 := by simp [hlen]
      dsimp only
      rw [pep_list_foldl_add, hlen2]
  · by_cases hcond : F ≤ ctx.freq.getD s 0 + 2 ∨ 16384 ≤ ctx.sum + 2
    · unfold pep_update
      rw [hfm, hsm, if_pos (by simpa [pepProbMaxValue] using hcond)]
      dsimp only
      rw [hFm]
      exact Nat.le_add_right F _
    · unfold pep_update
      rw [hfm, hsm, if_neg (by simpa [pepProbMaxValue] using hcond)]

/-- Witness for C5 at the order-0 context: a no-rescale update keeps
`F` at 128. -/
theorem pep_claim_C5_witness : 128 ≤ (pep_update pepCtxOrder0 3 128 2).2 :=
  (pep_claim_C5 pepCtxOrder0 3 128 2 (by decide) (by decide) (by decide) (by decide)).2.2.2.2

/-- Values produced by `pepFirstOcc` are new relative to `seen`. -/
theorem pepFirstOcc_notMem_seen :
    ∀ (rest seen : List Nat) (x : Nat), x ∈ pepFirstOcc seen rest → x ∉ seen := by
  intro rest
  induction rest with
  | nil => intro seen x h; exact absurd h (by simp [pepFirstOcc])
  | cons y ys ih =>
    intro seen x h
    rw [pepFirstOcc] at h
    split at h
    · exact ih seen x h
    · rcases List.mem_cons.mp h with rfl | h2
      · assumption
      · intro hx
        exact ih (seen ++ [y]) x h2 (List.mem_append_left _ hx)

/-- `pepFirstOcc` emits no duplicates. -/
theorem pepFirstOcc_nodup : ∀ (rest seen : List Nat), (pepFirstOcc seen rest).Nodup := by
  intro rest
  induction rest with
  | nil => intro seen; simp [pepFirstOcc]
  | cons y ys ih =>
    intro seen
    rw [pepFirstOcc]
    split
    · exact ih seen
    · refine List.nodup_cons.mpr ⟨?_, ih (seen ++ [y])⟩
      intro hy
      exact pepFirstOcc_notMem_seen ys (seen ++ [y]) y hy (List.mem_append_right _ (by simp))

/-- The linear search never runs past the list. -/
theorem pep_palette_find_le (l : List Nat) (c : Nat) : pep_palette_find l c ≤ l.length := by
  induction l with
  | nil => simp [pep_palette_find]
  | cons x xs ih =>
    rw [pep_palette_find]
    split
    · simp
    · simpa using ih

/-- The linear search stops inside the list exactly for present values. -/
theorem pep_palette_find_lt_iff (l : List Nat) (c : Nat) :
    pep_palette_find l c < l.length ↔ c ∈ l := by
  induction l with
  | nil => simp [pep_palette_find]
  | cons x xs ih =>
    rw [pep_palette_find]
    split
    · next h => simp [h]
    · next h =>
      simp only [List.length_cons, Nat.add_lt_add_iff_right, List.mem_cons, ih]
      exact ⟨fun h2 => Or.inr h2, fun h2 => h2.elim (fun he => absurd he h) id⟩

/-- The linear search returns an index holding the searched value. -/
theorem pep_palette_find_getD (l : List Nat) (c : Nat) (h : c ∈ l) :
    l.getD (pep_palette_find l c) 0 = c := by
  induction l with
  | nil => exact absurd h (by simp)
  | cons x xs ih =>
    rw [pep_palette_find]
    split
    · next he => simpa using he.symm
    · next he =>
      rcases List.mem_cons.mp h with rfl | h2
      · exact absurd rfl he
      · simpa using ih h2

/-- The linear search returns the first matching index. -/
theorem pep_palette_find_min (l : List Nat) (c : Nat) :
    ∀ j, j < pep_palette_find l c → l.getD j 0 ≠ c := by
  induction l with
  | nil => simp [pep_palette_find]
  | cons x xs ih =>
    intro j hj
    rw [pep_palette_find] at hj
    split at hj
    · omega
    · next he =>
      match j with
      | 0 => simpa using fun h2 => he h2.symm
      | j + 1 =>
        simp only [List.getD_cons_succ]
        exact ih j (by omega)

/-- The palette-construction loop computes the first-appearance list of
the remaining pixels, capped at 255 entries: the generalized invariant
over the loop state. -/
theorem pep_build_go : ∀ (rest pal : List Nat) (lastP : Nat) (started : Bool)
    (seen : List Nat),
    pal = seen.take 255 →
    (started = true → lastP ∈ seen) →
    (rest.foldl pep_palette_step ⟨pal, lastP, started⟩).palette
      = (seen ++ pepFirstOcc seen rest).take 255 := by
  intro rest
  induction rest with
  | nil =>
    intro pal lastP started seen hpal hlast
    simp [pepFirstOcc, hpal]
  | cons x rest ih =>
    intro pal lastP started seen hpal hlast
    rw [List.foldl_cons]
    by_cases hskip : started = true ∧ x = lastP
    · have hxseen : x ∈ seen := hskip.2 ▸ hlast hskip.1
      rw [pep_palette_step, if_pos hskip, pepFirstOcc, if_pos hxseen]
      exact ih pal lastP started seen hpal hlast
    · rw [pep_palette_step, if_neg hskip]
      dsimp only
      by_cases hx : x ∈ seen
      · rw [pepFirstOcc, if_pos hx]
        have hcond : ¬(pal.length ≤ pep_palette_find pal x ∧ pal.length + 1 < 256) := by
          by_cases hxp : x ∈ pal
          · intro hc
            exact absurd ((pep_palette_find_lt_iff pal x).mpr hxp) (by omega)
          · have hseenlen : 255 < seen.length := by
              by_contra hle
              push_neg at hle
              have hps : pal = seen := hpal.trans (List.take_of_length_le (by omega))
              exact hxp (hps ▸ hx)
            have hpallen : pal.length = 255 := by
              rw [hpal, List.length_take]
              omega
            intro hc
            omega
        rw [if_neg hcond]
        exact ih pal x true seen hpal (fun _ => hx)
      · have hxp : x ∉ pal := fun hc => hx (List.mem_of_mem_take (hpal ▸ hc))
        have hfind : pal.length ≤ pep_palette_find pal x := by
          rcases Nat.lt_or_ge (pep_palette_find pal x) pal.length with hlt | hge
          · exact absurd ((pep_palette_find_lt_iff pal x).mp hlt) hxp
          · exact hge
        rw [pepFirstOcc, if_neg hx]
        by_cases hlen : seen.length ≤ 254
        · have hpal2 : pal = seen := hpal.trans (List.take_of_length_le (by omega))
          have hguard : pal.length ≤ pep_palette_find pal x ∧ pal.length + 1 < 256 := by
            constructor
            · exact hfind
            · rw [hpal2]; omega
          rw [if_pos hguard]
          have := ih (pal ++ [x]) x true (seen ++ [x])
            (by rw [hpal2, List.take_of_length_le (by simp; omega)])
            (fun _ => List.mem_append_right _ (by simp))
          rw [this, List.append_assoc]
          simp
        · have hpallen : pal.length = 255 := by
            rw [hpal, List.length_take]
            omega
          rw [if_neg (by omega)]
          have := ih pal x true (seen ++ [x])
            (by rw [hpal, List.take_append_of_le_length (by omega)])
            (fun _ => List.mem_append_right _ (by simp))
          rw [this, List.append_assoc]
          simp

/-- The encode-loop index search agrees with the plain linear search
when the palette has at most 255 entries (the reset at index 256 is
unreachable). -/
theorem pep_index_go_eq (c : Nat) : ∀ (l : List Nat) (i : Nat), i + l.length ≤ 255 →
    pep_palette_index_go l i c = i + pep_palette_find l c := by
  intro l
  induction l with
  | nil => intro i h; simp [pep_palette_index_go, pep_palette_find]
  | cons x xs ih =>
    intro i h
    rw [pep_palette_index_go, pep_palette_find]
    split
    · simp
    · rw [if_neg (by simp at h; omega)]
      rw [ih (i + 1) (by simp at h ⊢; omega)]
      omega

/-- C6 (amended): scanning pixels in row-major order, `pep_compress`
builds its palette as the list of distinct colors in first-appearance
order, truncated at 255 entries (not 256: the guard
`(palette_size + 1) < 256` refuses a 256th entry); the palette has no
duplicates; every color present in the palette is encoded as the unique
index holding it, and a color absent from the palette (possible only
once the palette is full at 255) is encoded as index `palette_size`,
i.e. 255 (not 0). -/
theorem pep_claim_C6 (pixels : List Nat) :
    pep_palette_build pixels = (pepFirstOcc [] pixels).take 255 ∧
    (pep_palette_build pixels).Nodup ∧
    (pep_palette_build pixels).length ≤ 255 ∧
    (∀ c, c ∈ pep_palette_build pixels →
      (pep_palette_build pixels).getD (pep_palette_index (pep_palette_build pixels) c) 0 = c ∧
      (∀ j, j < (pep_palette_build pixels).length →
        (pep_palette_build pixels).getD j 0 = c →
        j = pep_palette_index (pep_palette_build pixels) c)) ∧
    (∀ c, c ∉ pep_palette_build pixels →
      pep_palette_index (pep_palette_build pixels) c = (pep_palette_build pixels).length) := by
  have hchar : pep_palette_build pixels = (pepFirstOcc [] pixels).take 255 := by
    have := pep_build_go pixels [] 0 false [] rfl (fun h => nomatch h)
    simpa [pep_palette_build] using this
  have hlen : (pep_palette_build pixels).length ≤ 255 := by
    rw [hchar]; exact List.length_take_le 255 _
  have hnodup : (pep_palette_build pixels).Nodup := by
    rw [hchar]
    exact (pepFirstOcc_nodup pixels []).sublist (List.take_sublist 255 _)
  have hidx : ∀ c, pep_palette_index (pep_palette_build pixels) c
      = pep_palette_find (pep_palette_build pixels) c := by
    intro c
    unfold pep_palette_index
    rw [pep_index_go_eq c _ 0 (by omega), Nat.zero_add]
  refine ⟨hchar, hnodup, hlen, ?_, ?_⟩
  · intro c hc
    rw [hidx c]
    refine ⟨pep_palette_find_getD _ c hc, ?_⟩
    intro j hj hje
    have hflt := (pep_palette_find_lt_iff (pep_palette_build pixels) c).mpr hc
    have hg1 : (pep_palette_build pixels)[j] = c := by
      rw [← List.getD_eq_getElem _ 0 hj]; exact hje
    have hg2 : (pep_palette_build pixels)[pep_palette_find (pep_palette_build pixels) c] = c := by
      rw [← List.getD_eq_getElem _ 0 hflt]
      exact pep_palette_find_getD _ c hc
    exact hnodup.getElem_inj_iff.mp (hg1.trans hg2.symm)
  · intro c hc
    rw [hidx c]
    rcases Nat.lt_or_ge (pep_palette_find (pep_palette_build pixels) c)
      (pep_palette_build pixels).length with hlt | hge
    · exact absurd ((pep_palette_find_lt_iff _ c).mp hlt) hc
    · exact Nat.le_antisymm (pep_palette_find_le _ c) hge

/-- Witness for C6 at the stream `[7, 7, 5]`: the color 5 encodes to
the index holding it, and the absent color 9 encodes to the palette
size. -/
theorem pep_claim_C6_witness :
    (pep_palette_build [7, 7, 5]).getD
      (pep_palette_index (pep_palette_build [7, 7, 5]) 5) 0 = 5 ∧
    pep_palette_index (pep_palette_build [7, 7, 5]) 9
      = (pep_palette_build [7, 7, 5]).length :=
  ⟨((pep_claim_C6 [7, 7, 5]).2.2.2.1 5 (by decide)).1,
   (pep_claim_C6 [7, 7, 5]).2.2.2.2 9 (by decide)⟩

/-- Shape facts about a buffer of the form `front ++ data ++ [0]`: its
length, and the NUL at the index right after the data. -/
theorem pep_tail_facts (F bl : List Nat) :
    (F ++ bl ++ [0]).length = F.length + bl.length + 1 ∧
    (F ++ bl ++ [0]).getD (F.length + bl.length) 0 = 0 := by
  constructor
  · simp
    omega
  · rw [List.getD_append_right (F ++ bl) [0] 0 _ (by simp)]
    simp

/-- C9 (amended): for every valid image, the buffer written by
`pep_serialize` is `front ++ bytes ++ [0]`: the NUL sentinel sits
immediately after the `bytes_size` compressed bytes, but the reported
`out_size` counts every field except that sentinel — the buffer holds
`out_size + 1` written bytes and the NUL is at index `out_size`, not
`out_size - 1`. -/
theorem pep_claim_C9 (p : Pep) (bl : List Nat)
    (hw : p.width ≠ 0) (hh : p.height ≠ 0) (hbs : p.bytes_size ≠ 0)
    (hb : p.bytes = some bl) (hblen : bl.length = p.bytes_size) :
    ∃ front : List Nat,
      (pep_serialize (some p)).1 = some (front ++ bl ++ [0]) ∧
      (pep_serialize (some p)).2 = front.length + p.bytes_size ∧
      ((pep_serialize (some p)).1.getD []).length = (pep_serialize (some p)).2 + 1 ∧
      ((pep_serialize (some p)).1.getD []).getD (pep_serialize (some p)).2 0 = 0 := by
  have hdata : (p.bytes.getD []).take p.bytes_size = bl := by
    rw [hb]
    simp only [Option.getD_some]
    rw [← hblen]
    exact List.take_length bl
  unfold pep_serialize
  dsimp only
  rw [if_neg (by simp [hw, hh, hbs, hb])]
  dsimp only
  rw [hdata]
  refine ⟨_, rfl, rfl, ?_, ?_⟩
  · dsimp only [Option.getD_some]
    rw [(pep_tail_facts _ bl).1, hblen]
  · dsimp only [Option.getD_some]
    rw [← hblen, (pep_tail_facts _ bl).2]

/-- Witness for C9 at the hand-built image `pepC9input`. -/
theorem pep_claim_C9_witness :
    ∃ front : List Nat,
      (pep_serialize (some pepC9input)).1 = some (front ++ [1, 2, 3, 4] ++ [0]) ∧
      (pep_serialize (some pepC9input)).2 = front.length + pepC9input.bytes_size ∧
      ((pep_serialize (some pepC9input)).1.getD []).length
        = (pep_serialize (some pepC9input)).2 + 1 ∧
      ((pep_serialize (some pepC9input)).1.getD []).getD
        (pep_serialize (some pepC9input)).2 0 = 0 :=
  pep_claim_C9 pepC9input [1, 2, 3, 4] (by decide) (by decide) (by decide) (by decide) (by decide)

/-- The encode loop over a concatenation runs the two parts in
sequence, concatenating their emitted bytes and ghost scales. -/
theorem pep_encode_chunk_append (cfg : EncCfg) (a b : List Nat) (st : EncSt) :
    pep_encode_chunk cfg (a ++ b) st =
      ((pep_encode_chunk cfg b (pep_encode_chunk cfg a st).1).1,
       (pep_encode_chunk cfg a st).2.1 ++
         (pep_encode_chunk cfg b (pep_encode_chunk cfg a st).1).2.1,
       (pep_encode_chunk cfg a st).2.2 ++
         (pep_encode_chunk cfg b (pep_encode_chunk cfg a st).1).2.2) := by
  induction a generalizing st with
  | nil => simp [pep_encode_chunk]
  | cons p ps ih =>
    simp only [List.cons_append, pep_encode_chunk, List.append_eq]
    rw [ih]
    simp [List.append_assoc]

/-- State projection of `pep_encode_chunk_append`. -/
theorem pep_encode_chunk_append_fst (cfg : EncCfg) (a b : List Nat) (st : EncSt) :
    (pep_encode_chunk cfg (a ++ b) st).1
      = (pep_encode_chunk cfg b (pep_encode_chunk cfg a st).1).1 := by
  rw [pep_encode_chunk_append]

/-- Emitted-bytes projection of `pep_encode_chunk_append`. -/
theorem pep_encode_chunk_append_bytes (cfg : EncCfg) (a b : List Nat) (st : EncSt) :
    (pep_encode_chunk cfg (a ++ b) st).2.1
      = (pep_encode_chunk cfg a st).2.1 ++
        (pep_encode_chunk cfg b (pep_encode_chunk cfg a st).1).2.1 := by
  rw [pep_encode_chunk_append]

/-- Ghost-scales projection of `pep_encode_chunk_append`. -/
theorem pep_encode_chunk_append_scales (cfg : EncCfg) (a b : List Nat) (st : EncSt) :
    (pep_encode_chunk cfg (a ++ b) st).2.2
      = (pep_encode_chunk cfg a st).2.2 ++
        (pep_encode_chunk cfg b (pep_encode_chunk cfg a st).1).2.2 := by
  rw [pep_encode_chunk_append]

/-- Checkpoint: 250 more pixels advance the state to `pepC8S1`. -/
theorem pep_c8_state1 :
    (pep_encode_chunk pepC8cfg (List.replicate 250 7) pepEncInit).1 = pepC8S1 := by rfl
/-- Checkpoint: the bytes those 250 pixels emit. -/
theorem pep_c8_bytes1 :
    (pep_encode_chunk pepC8cfg (List.replicate 250 7) pepEncInit).2.1 = [0] := by rfl
/-- Checkpoint: 250 more pixels advance the state to `pepC8S2`. -/
theorem pep_c8_state2 :
    (pep_encode_chunk pepC8cfg (List.replicate 250 7) pepC8S1).1 = pepC8S2 := by rfl
/-- Checkpoint: the bytes those 250 pixels emit. -/
theorem pep_c8_bytes2 :
    (pep_encode_chunk pepC8cfg (List.replicate 250 7) pepC8S1).2.1 = [] := by rfl
/-- Checkpoint: 250 more pixels advance the state to `pepC8S3`. -/
theorem pep_c8_state3 :
    (pep_encode_chunk pepC8cfg (List.replicate 250 7) pepC8S2).1 = pepC8S3 := by rfl
/-- Checkpoint: the bytes those 250 pixels emit. -/
theorem pep_c8_bytes3 :
    (pep_encode_chunk pepC8cfg (List.replicate 250 7) pepC8S2).2.1 = [] := by rfl
/-- Checkpoint: 250 more pixels advance the state to `pepC8S4`. -/
theorem pep_c8_state4 :
    (pep_encode_chunk pepC8cfg (List.replicate 250 7) pepC8S3).1 = pepC8S4 := by rfl
/-- Checkpoint: the bytes those 250 pixels emit. -/
theorem pep_c8_bytes4 :
    (pep_encode_chunk pepC8cfg (List.replicate 250 7) pepC8S3).2.1 = [] := by rfl
/-- Checkpoint: 250 more pixels advance the state to `pepC8S5`. -/
theorem pep_c8_state5 :
    (pep_encode_chunk pepC8cfg (List.replicate 250 7) pepC8S4).1 = pepC8S5 := by rfl
/-- Checkpoint: the bytes those 250 pixels emit. -/
theorem pep_c8_bytes5 :
    (pep_encode_chunk pepC8cfg (List.replicate 250 7) pepC8S4).2.1 = [] := by rfl
/-- Checkpoint: 250 more pixels advance the state to `pepC8S6`. -/
theorem pep_c8_state6 :
    (pep_encode_chunk pepC8cfg (List.replicate 250 7) pepC8S5).1 = pepC8S6 := by rfl
/-- Checkpoint: the bytes those 250 pixels emit. -/
theorem pep_c8_bytes6 :
    (pep_encode_chunk pepC8cfg (List.replicate 250 7) pepC8S5).2.1 = [] := by rfl
/-- Checkpoint: 250 more pixels advance the state to `pepC8S7`. -/
theorem pep_c8_state7 :
    (pep_encode_chunk pepC8cfg (List.replicate 250 7) pepC8S6).1 = pepC8S7 := by rfl
/-- Checkpoint: the bytes those 250 pixels emit. -/
theorem pep_c8_bytes7 :
    (pep_encode_chunk pepC8cfg (List.replicate 250 7) pepC8S6).2.1 = [] := by rfl
/-- Checkpoint: 250 more pixels advance the state to `pepC8S8`. -/
theorem pep_c8_state8 :
    (pep_encode_chunk pepC8cfg (List.replicate 250 7) pepC8S7).1 = pepC8S8 := by rfl
/-- Checkpoint: the bytes those 250 pixels emit. -/
theorem pep_c8_bytes8 :
    (pep_encode_chunk pepC8cfg (List.replicate 250 7) pepC8S7).2.1 = [] := by rfl
/-- Checkpoint: 250 more pixels advance the state to `pepC8S9`. -/
theorem pep_c8_state9 :
    (pep_encode_chunk pepC8cfg (List.replicate 250 7) pepC8S8).1 = pepC8S9 := by rfl
/-- Checkpoint: the bytes those 250 pixels emit. -/
theorem pep_c8_bytes9 :
    (pep_encode_chunk pepC8cfg (List.replicate 250 7) pepC8S8).2.1 = [] := by rfl
/-- Checkpoint: 250 more pixels advance the state to `pepC8S10`. -/
theorem pep_c8_state10 :
    (pep_encode_chunk pepC8cfg (List.replicate 250 7) pepC8S9).1 = pepC8S10 := by rfl
/-- Checkpoint: the bytes those 250 pixels emit. -/
theorem pep_c8_bytes10 :
    (pep_encode_chunk pepC8cfg (List.replicate 250 7) pepC8S9).2.1 = [] := by rfl
/-- Checkpoint: 250 more pixels advance the state to `pepC8S11`. -/
theorem pep_c8_state11 :
    (pep_encode_chunk pepC8cfg (List.replicate 250 7) pepC8S10).1 = pepC8S11 := by rfl
/-- Checkpoint: the bytes those 250 pixels emit. -/
theorem pep_c8_bytes11 :
    (pep_encode_chunk pepC8cfg (List.replicate 250 7) pepC8S10).2.1 = [] := by rfl
/-- Checkpoint: 250 more pixels advance the state to `pepC8S12`. -/
theorem pep_c8_state12 :
    (pep_encode_chunk pepC8cfg (List.replicate 250 7) pepC8S11).1 = pepC8S12 := by rfl
/-- Checkpoint: the bytes those 250 pixels emit. -/
theorem pep_c8_bytes12 :
    (pep_encode_chunk pepC8cfg (List.replicate 250 7) pepC8S11).2.1 = [] := by rfl
/-- Checkpoint: 250 more pixels advance the state to `pepC8S13`. -/
theorem pep_c8_state13 :
    (pep_encode_chunk pepC8cfg (List.replicate 250 7) pepC8S12).1 = pepC8S13 := by rfl
/-- Checkpoint: the bytes those 250 pixels emit. -/
theorem pep_c8_bytes13 :
    (pep_encode_chunk pepC8cfg (List.replicate 250 7) pepC8S12).2.1 = [] := by rfl
/-- Checkpoint: 250 more pixels advance the state to `pepC8S14`. -/
theorem pep_c8_state14 :
    (pep_encode_chunk pepC8cfg (List.replicate 250 7) pepC8S13).1 = pepC8S14 := by rfl
/-- Checkpoint: the bytes those 250 pixels emit. -/
theorem pep_c8_bytes14 :
    (pep_encode_chunk pepC8cfg (List.replicate 250 7) pepC8S13).2.1 = [] := by rfl
/-- Checkpoint: 250 more pixels advance the state to `pepC8S15`. -/
theorem pep_c8_state15 :
    (pep_encode_chunk pepC8cfg (List.replicate 250 7) pepC8S14).1 = pepC8S15 := by rfl
/-- Checkpoint: the bytes those 250 pixels emit. -/
theorem pep_c8_bytes15 :
    (pep_encode_chunk pepC8cfg (List.replicate 250 7) pepC8S14).2.1 = [] := by rfl
/-- Checkpoint: 250 more pixels advance the state to `pepC8S16`. -/
theorem pep_c8_state16 :
    (pep_encode_chunk pepC8cfg (List.replicate 250 7) pepC8S15).1 = pepC8S16 := by rfl
/-- Checkpoint: the bytes those 250 pixels emit. -/
theorem pep_c8_bytes16 :
    (pep_encode_chunk pepC8cfg (List.replicate 250 7) pepC8S15).2.1 = [] := by rfl
/-- Checkpoint: 97 more pixels advance the state to `pepC8S17`. -/
theorem pep_c8_state17 :
    (pep_encode_chunk pepC8cfg (List.replicate 97 7) pepC8S16).1 = pepC8S17 := by rfl
/-- Checkpoint: the bytes those 97 pixels emit. -/
theorem pep_c8_bytes17 :
    (pep_encode_chunk pepC8cfg (List.replicate 97 7) pepC8S16).2.1 = [] := by rfl
/-- Peeling 250 pixels off a replicate run, state projection. -/
theorem pep_c8_step (n mm : Nat) (st S : EncSt) (hm : mm = 250 + n)
    (h : (pep_encode_chunk pepC8cfg (List.replicate 250 7) st).1 = S) :
    (pep_encode_chunk pepC8cfg (List.replicate mm 7) st).1
      = (pep_encode_chunk pepC8cfg (List.replicate n 7) S).1 := by
  subst hm
  rw [List.replicate_add, pep_encode_chunk_append_fst, h]

/-- Peeling 250 pixels off a replicate run, bytes projection. -/
theorem pep_c8_bstep (n mm : Nat) (st S : EncSt) (B : List Nat) (hm : mm = 250 + n)
    (h1 : (pep_encode_chunk pepC8cfg (List.replicate 250 7) st).1 = S)
    (h2 : (pep_encode_chunk pepC8cfg (List.replicate 250 7) st).2.1 = B) :
    (pep_encode_chunk pepC8cfg (List.replicate mm 7) st).2.1
      = B ++ (pep_encode_chunk pepC8cfg (List.replicate n 7) S).2.1 := by
  subst hm
  rw [List.replicate_add, pep_encode_chunk_append_bytes, h1, h2]
/-- The full 4097-pixel encode run ends in state `pepC8S17`. -/
theorem pep_c8_full_state :
    (pep_encode_chunk pepC8cfg (List.replicate 4097 7) pepEncInit).1 = pepC8S17 := by
  rw [pep_c8_step 3847 4097 pepEncInit pepC8S1 (by norm_num) pep_c8_state1,
      pep_c8_step 3597 3847 pepC8S1 pepC8S2 (by norm_num) pep_c8_state2,
      pep_c8_step 3347 3597 pepC8S2 pepC8S3 (by norm_num) pep_c8_state3,
      pep_c8_step 3097 3347 pepC8S3 pepC8S4 (by norm_num) pep_c8_state4,
      pep_c8_step 2847 3097 pepC8S4 pepC8S5 (by norm_num) pep_c8_state5,
      pep_c8_step 2597 2847 pepC8S5 pepC8S6 (by norm_num) pep_c8_state6,
      pep_c8_step 2347 2597 pepC8S6 pepC8S7 (by norm_num) pep_c8_state7,
      pep_c8_step 2097 2347 pepC8S7 pepC8S8 (by norm_num) pep_c8_state8,
      pep_c8_step 1847 2097 pepC8S8 pepC8S9 (by norm_num) pep_c8_state9,
      pep_c8_step 1597 1847 pepC8S9 pepC8S10 (by norm_num) pep_c8_state10,
      pep_c8_step 1347 1597 pepC8S10 pepC8S11 (by norm_num) pep_c8_state11,
      pep_c8_step 1097 1347 pepC8S11 pepC8S12 (by norm_num) pep_c8_state12,
      pep_c8_step 847 1097 pepC8S12 pepC8S13 (by norm_num) pep_c8_state13,
      pep_c8_step 597 847 pepC8S13 pepC8S14 (by norm_num) pep_c8_state14,
      pep_c8_step 347 597 pepC8S14 pepC8S15 (by norm_num) pep_c8_state15,
      pep_c8_step 97 347 pepC8S15 pepC8S16 (by norm_num) pep_c8_state16]
  exact pep_c8_state17
/-- The full 4097-pixel encode run emits the single byte `0`. -/
theorem pep_c8_full_bytes :
    (pep_encode_chunk pepC8cfg (List.replicate 4097 7) pepEncInit).2.1 = [0] := by
  rw [pep_c8_bstep 3847 4097 pepEncInit pepC8S1 [0] (by norm_num) pep_c8_state1 pep_c8_bytes1,
      pep_c8_bstep 3597 3847 pepC8S1 pepC8S2 [] (by norm_num) pep_c8_state2 pep_c8_bytes2,
      pep_c8_bstep 3347 3597 pepC8S2 pepC8S3 [] (by norm_num) pep_c8_state3 pep_c8_bytes3,
      pep_c8_bstep 3097 3347 pepC8S3 pepC8S4 [] (by norm_num) pep_c8_state4 pep_c8_bytes4,
      pep_c8_bstep 2847 3097 pepC8S4 pepC8S5 [] (by norm_num) pep_c8_state5 pep_c8_bytes5,
      pep_c8_bstep 2597 2847 pepC8S5 pepC8S6 [] (by norm_num) pep_c8_state6 pep_c8_bytes6,
      pep_c8_bstep 2347 2597 pepC8S6 pepC8S7 [] (by norm_num) pep_c8_state7 pep_c8_bytes7,
      pep_c8_bstep 2097 2347 pepC8S7 pepC8S8 [] (by norm_num) pep_c8_state8 pep_c8_bytes8,
      pep_c8_bstep 1847 2097 pepC8S8 pepC8S9 [] (by norm_num) pep_c8_state9 pep_c8_bytes9,
      pep_c8_bstep 1597 1847 pepC8S9 pepC8S10 [] (by norm_num) pep_c8_state10 pep_c8_bytes10,
      pep_c8_bstep 1347 1597 pepC8S10 pepC8S11 [] (by norm_num) pep_c8_state11 pep_c8_bytes11,
      pep_c8_bstep 1097 1347 pepC8S11 pepC8S12 [] (by norm_num) pep_c8_state12 pep_c8_bytes12,
      pep_c8_bstep 847 1097 pepC8S12 pepC8S13 [] (by norm_num) pep_c8_state13 pep_c8_bytes13,
      pep_c8_bstep 597 847 pepC8S13 pepC8S14 [] (by norm_num) pep_c8_state14 pep_c8_bytes14,
      pep_c8_bstep 347 597 pepC8S14 pepC8S15 [] (by norm_num) pep_c8_state15 pep_c8_bytes15,
      pep_c8_bstep 97 347 pepC8S15 pepC8S16 [] (by norm_num) pep_c8_state16 pep_c8_bytes16]
  rw [pep_c8_bytes17]
  simp
/-- The tail group of the 4097-pixel run: one more coded symbol,
no bytes emitted. -/
theorem pep_c8_tail :
    pep_encode_tail pepC8cfg pepC8S17 = (pepC8T, [], [388]) := by rfl

/-- Scanning further copies of color `7` leaves the palette state fixed. -/
theorem pep_c8_palette_go (n : Nat) :
    (List.replicate n 7).foldl pep_palette_step (PaletteSt.mk [7] 7 true)
      = PaletteSt.mk [7] 7 true := by
  induction n with
  | zero => rfl
  | succ k ih =>
    rw [List.replicate_succ, List.foldl_cons]
    exact ih

/-- The palette of the all-`7` image is `[7]`. -/
theorem pep_c8_palette : pep_palette_build (List.replicate 4097 7) = [7] := by
  have e : (4097 : Nat) = 1 + 4096 := by norm_num
  have h1 : (List.replicate 1 7).foldl pep_palette_step (PaletteSt.mk [] 0 false)
      = PaletteSt.mk [7] 7 true := by rfl
  rw [pep_palette_build, e, List.replicate_add, List.foldl_append, h1, pep_c8_palette_go]

/-- Expansion of `pep_compress` on a non-degenerate `some` input, with
the palette scan, configuration, and pixel slice abstracted by
hypotheses so the expansion can be instantiated by rewriting. -/
theorem pep_compress_some (pxs pixels : List Nat) (w h : Nat) (f : PepFormat)
    (cb : PepChannelBits) (cfg : EncCfg) (pal : List Nat)
    (hA : (w * h) % U32 ≠ 0)
    (hpix : pxs.take ((w * h) % U32) = pixels)
    (hpal : pep_palette_build pixels = pal)
    (hcfg : cfg = EncCfg.mk pal pal.length
        (if 8 < pep_bits_to_fit pal.length then 8 else pep_bits_to_fit pal.length)
        (8 / (if 8 < pep_bits_to_fit pal.length then 8 else pep_bits_to_fit pal.length))) :
    pep_compress (some pxs) w h f cb =
      if (pep_encode_tail cfg (pep_encode_chunk cfg pixels pepEncInit).1).1.alive = true
      then some { bytes := some ((pep_encode_chunk cfg pixels pepEncInit).2.1
                    ++ (pep_encode_tail cfg (pep_encode_chunk cfg pixels pepEncInit).1).2.1
                    ++ pep_encode_flush 4
                        (pep_encode_tail cfg (pep_encode_chunk cfg pixels pepEncInit).1).1.ac),
                  bytes_size := ((pep_encode_chunk cfg pixels pepEncInit).2.1
                    ++ (pep_encode_tail cfg (pep_encode_chunk cfg pixels pepEncInit).1).2.1
                    ++ pep_encode_flush 4
                        (pep_encode_tail cfg (pep_encode_chunk cfg pixels pepEncInit).1).1.ac).length,
                  width := w, height := h, format := f,
                  palette := pal ++ List.replicate (256 - pal.length) 0,
                  palette_size := pal.length, channel_bits := cb }
      else none := by
  subst hcfg
  subst hpal
  subst hpix
  simp only [pep_compress, pep_compress_core]
  rw [if_neg hA, apply_ite Prod.fst]

/-- C8 counterexample: a 4097-by-1 image is wider than the documented
4096 limit, yet `pep_compress` compresses it normally. -/
theorem pep_claim_C8_counterexample :
    pep_compress (some (List.replicate 4097 7)) 4097 1 PepFormat.rgba PepChannelBits.bits8
      = some { bytes := some [0, 0, 0, 0, 0], bytes_size := 5, width := 4097, height := 1,
               format := PepFormat.rgba, palette := 7 :: List.replicate 255 0,
               palette_size := 1, channel_bits := PepChannelBits.bits8 } := by
  rw [pep_compress_some (List.replicate 4097 7) (List.replicate 4097 7) 4097 1
        PepFormat.rgba PepChannelBits.bits8 pepC8cfg [7]
        (by norm_num [U32]) (by norm_num [U32, List.take_replicate]) pep_c8_palette
        (by norm_num [pepC8cfg, pep_bits_to_fit])]
  rw [pep_c8_full_state, pep_c8_full_bytes, pep_c8_tail]
  decide

/-- C8 (amended): the guards that do exist: `pep_compress` returns the
empty image when `in_pixels` is null or the pixel area is zero (width
or height 0), and `pep_decompress` returns null pixels when the input
is null, its `bytes` is null, its `bytes_size` is 0, or its width or
height is 0.  No dimension-limit check is performed (see the
counterexample). -/
theorem pep_claim_C8 (w h : Nat) (f : PepFormat) (cb : PepChannelBits)
    (px : List Nat) (outF : PepFormat) (t pm : Nat) (p : Pep) :
    pep_compress none w h f cb = some pepZero
    ∧ (w = 0 ∨ h = 0 → pep_compress (some px) w h f cb = some pepZero)
    ∧ pep_decompress none outF t pm = none
    ∧ ((p.bytes = none ∨ p.bytes_size = 0 ∨ p.width = 0 ∨ p.height = 0) →
        pep_decompress (some p) outF t pm = none) := by
  refine ⟨rfl, ?_, rfl, ?_⟩
  · intro h0
    rcases h0 with h0 | h0 <;> subst h0 <;>
      simp [pep_compress, pep_compress_core]
  · intro hg
    simp only [pep_decompress, pep_decompress_core]
    rw [if_pos hg]

theorem pep_claim_C8_witness :
    pep_compress (some [3]) 0 5 PepFormat.rgba PepChannelBits.bits8 = some pepZero
    ∧ pep_decompress (some pepZero) PepFormat.rgba 0 0 = none :=
  ⟨(pep_claim_C8 0 5 PepFormat.rgba PepChannelBits.bits8 [3] PepFormat.rgba 0 0 pepZero).2.1
      (Or.inl rfl),
   (pep_claim_C8 0 5 PepFormat.rgba PepChannelBits.bits8 [3] PepFormat.rgba 0 0 pepZero).2.2.2
      (Or.inl rfl)⟩

/-- C4 (code bug): every context total of `pepC4St` respects the
`2^14` cap and equals its frequency sum, yet after coding the pixels
`131, 0, 132, 0, 133` — two escapes whose `+1` increments to
`freq[256]` and to the fresh symbol's slot bypass the `PEP_UPDATE`
rescale check — the order-2 context's total reaches 16386 and is handed
to `_pep_arith_encode` as a scale exceeding `2^14`. -/
theorem pep_claim_C4_bug :
    (∀ c ∈ pepC4St.contexts, c.sum ≤ 2 ^ 14 ∧ c.sum = c.freq.foldl (· + ·) 0) ∧
    ∃ s ∈ (pep_encode_chunk pepC4cfg [131, 0, 132, 0, 133] pepC4St).2.2, 2 ^ 14 < s := by
  decide
